import Mathlib

/-!
Verification development for the WhatsApp appointment-booking bot
(repository variants around `sheets.service.ts` / `whatsapp.service.ts` /
`server.js`).  The TypeScript sources are shallowly embedded: pure string
manipulation becomes functions on `List Char`, the Google-Sheets tabs become
explicit in-memory tables threaded through each operation, and the
conversation orchestrator becomes a pure step function from
(context, store, per-user state, form, inbound event) to
(new state, new form, new store, outbound messages, reply text).

Conventions:
* A sheet row of the `Horarios` tab is a `SlotRow` (columns A..G).
* Row number n of the spreadsheet corresponds to list index n - 2
  (row 1 is the header and is not part of the data model).
* JavaScript string primitives (`trim`, `toUpperCase`, `replace(/[^\d]/g)`,
  `includes`, `startsWith`, `parseInt`, `split`) are modelled on `List Char`;
  the inputs the bot manipulates (statuses, dates, times, digits, button
  ids) are ASCII, and the ASCII-exact models below agree with the JS
  primitives on them.
-/

/-! ## JavaScript string primitives -/

/-- JS whitespace test, restricted to the ASCII whitespace actually present
in the bot's data. -/
def jsSpace (c : Char) : Bool :=
  c == ' ' || c == '\t' || c == '\n' || c == '\r'

/-- `String.prototype.trim`. -/
def jsTrim (s : String) : String :=
  String.mk (((s.data.dropWhile jsSpace).reverse.dropWhile jsSpace).reverse)

/-- ASCII upper-casing of one character (`String.prototype.toUpperCase`;
statuses such as `DISPONIBLE` / `RESERVADO` are ASCII). -/
def jsUpperChar (c : Char) : Char :=
  if 'a' ≤ c ∧ c ≤ 'z' then Char.ofNat (c.toNat - 32) else c

/-- ASCII lower-casing of one character (`String.prototype.toLowerCase`). -/
def jsLowerChar (c : Char) : Char :=
  if 'A' ≤ c ∧ c ≤ 'Z' then Char.ofNat (c.toNat + 32) else c

/-- `s.toUpperCase()`. -/
def jsToUpper (s : String) : String := String.mk (s.data.map jsUpperChar)

/-- `s.toLowerCase()`. -/
def jsToLower (s : String) : String := String.mk (s.data.map jsLowerChar)

/-- `String(s).replace(/[^\d]/g, '')` — keep only ASCII digits. -/
def onlyDigits (s : String) : String := String.mk (s.data.filter Char.isDigit)

/-- `a.isPrefixOf b` on raw character lists. -/
def charsIsPrefixOf : List Char → List Char → Bool
  | [], _ => true
  | _ :: _, [] => false
  | a :: as, b :: bs => a == b && charsIsPrefixOf as bs

/-- `s.includes(sub)`. -/
def jsIncludes (s sub : String) : Bool :=
  (List.range (s.data.length + 1)).any fun i =>
    charsIsPrefixOf sub.data (s.data.drop i)

/-- `s.startsWith(p)`. -/
def jsStartsWith (s p : String) : Bool := charsIsPrefixOf p.data s.data

/-- `s.substring(n)` for an ASCII string (code units = characters). -/
def jsDrop (s : String) (n : Nat) : String := String.mk (s.data.drop n)

/-- Numeric value of a list of ASCII digits. -/
def digitsVal (l : List Char) : Nat :=
  l.foldl (fun acc c => 10 * acc + (c.toNat - 48)) 0

/-- `parseInt(s, 10)` restricted to `Nat` results.  A string without leading
digits yields `NaN` in JS; both `NaN` and `0` (and any value `<= 0`) make
`reserveSlotRow` return `false` without touching the sheet, and the `more_`
handler coerces `NaN` to `0` explicitly (`|| 0`), so `0` is a faithful
encoding of the failure value on every path the bot takes. -/
def jsParseIntNat (s : String) : Nat :=
  digitsVal (s.data.takeWhile Char.isDigit)

/-- Decimal rendering of a `Nat` (used for `slot_${row}` ids); fuel-based so
that it reduces inside the kernel. -/
def natToChars : Nat → Nat → List Char
  | 0, _ => []
  | _ + 1, n =>
    if h : n < 10 then [Char.ofNat (48 + n)]
    else natToChars n (n / 10) ++ [Char.ofNat (48 + n % 10)]

/-- `String(n)` for a natural number. -/
def natToStr (n : Nat) : String := String.mk (natToChars (n + 1) n)

/-- Lexicographic comparison of character lists by code point: the model of
`a.localeCompare(b) <= 0` for the `HH:MM` time strings the bot sorts (digit
and colon collation in any locale agrees with code-point order on them). -/
def lexLe : List Char → List Char → Bool
  | [], _ => true
  | _ :: _, [] => false
  | a :: as, b :: bs =>
    if a.toNat < b.toNat then true
    else if b.toNat < a.toNat then false
    else lexLe as bs

/-- `a.localeCompare(b) <= 0` on strings. -/
def strLe (a b : String) : Bool := lexLe a.data b.data

/-! ## The slots tab (`Horarios`) and appointments tab (`Citas`) -/

/-- One data row of the `Horarios` tab: columns
A fecha, B hora, C servicio, D estado, E notas, F reservado_por, G Fecha
(claim timestamp).  Cells that the spreadsheet leaves blank read back as the
empty string, matching `(rows[i][k] || '')`. -/
structure SlotRow where
  fecha : String := ""
  hora : String := ""
  servicio : String := ""
  estado : String := ""
  notas : String := ""
  reservadoPor : String := ""
  fechaTs : String := ""
deriving DecidableEq, Repr

/-- One row of the `Citas` (bookings) tab, columns A..J. -/
structure ApptRow where
  creadoIso : String
  telefono : String
  nombre : String
  email : String
  servicio : String
  fecha : String
  hora : String
  estado : String
  slotRow : String
  calendarEventId : String
deriving DecidableEq, Repr

/-- The spreadsheet: slot rows (index i ↔ sheet row i + 2) and the
append-only bookings ledger. -/
structure Store where
  slots : List SlotRow
  citas : List ApptRow := []
deriving DecidableEq, Repr

/-- A slot as offered to a user (`SlotOffered` in `sheets.service.ts`); the
unused optional `fallback` flag is omitted. -/
structure SlotOffered where
  row : Nat
  date : String
  time : String
  label : String
deriving DecidableEq, Repr

/-- Read sheet row `n` (1-based, header at row 1); blank row when absent. -/
def Store.rowAt (st : Store) (n : Nat) : SlotRow :=
  if n < 2 then {} else (st.slots.get? (n - 2)).getD {}

namespace Sheets

/-- The open test applied by `getSlotsForDate`:
`(!estado || estado === 'DISPONIBLE')` after trim + toUpperCase. -/
def estadoOpen (estado : String) : Bool :=
  let e := jsToUpper (jsTrim estado)
  e == "" || e == "DISPONIBLE"

/-- The `SlotOffered` built from data index `i` (sheet row `i + 2`). -/
def mkOffered (i : Nat) (r : SlotRow) : SlotOffered :=
  { row := i + 2
    date := jsTrim r.fecha
    time := jsTrim r.hora
    label := jsTrim r.fecha ++ " • " ++ jsTrim r.hora }

/-- `SheetsService.getSlotsForDate`: walk the data rows, keep those whose
trimmed `fecha` equals the requested date and whose `estado` is blank or
`DISPONIBLE`, then sort ascending by `hora` (the source uses the stable
`Array.prototype.sort` with `localeCompare`; a stable sort by a total
preorder has a unique result, here realised by `List.insertionSort`). -/
def getSlotsForDate (slots : List SlotRow) (dateYMD : String) : List SlotOffered :=
  let out := (slots.enum).filterMap fun p =>
    let i := p.1
    let r := p.2
    if jsTrim r.fecha == dateYMD ∧ estadoOpen r.estado then some (mkOffered i r)
    else none
  out.insertionSort fun a b => strLe a.time b.time

/-- `SheetsService.reserveSlotRow`: re-read the row, refuse when the status
cell is non-blank and different from `DISPONIBLE`, otherwise overwrite
columns C..G with servicio, `RESERVADO`, blank notes, the claimant's phone
digits and the current ISO timestamp.  The boolean is the claim result; the
returned store is the sheet afterwards.  (`rowNumber <= 0` is rejected up
front; writes beyond the current grid are not needed by any claim and the
contract theorems carry an in-range hypothesis.) -/
def reserveSlotRow (st : Store) (rowNumber : Nat) (byPhone serviceType nowIso : String) :
    Bool × Store :=
  if rowNumber == 0 then (false, st)
  else
    let cur := st.rowAt rowNumber
    let estadoActual := jsToUpper cur.estado
    if estadoActual ≠ "" ∧ estadoActual ≠ "DISPONIBLE" then (false, st)
    else
      (true,
        { st with
          slots := st.slots.set (rowNumber - 2)
            { cur with
              servicio := serviceType
              estado := "RESERVADO"
              notas := ""
              reservadoPor := onlyDigits byPhone
              fechaTs := nowIso } })

/-- `SheetsService.appendAppointmentRow`: append one row to the `Citas` tab. -/
def appendAppointmentRow (st : Store)
    (telefono nombre email servicio fecha hora slotRow nowIso : String) : Store :=
  { st with
    citas := st.citas ++
      [{ creadoIso := nowIso
         telefono := onlyDigits telefono
         nombre := nombre
         email := email
         servicio := servicio
         fecha := fecha
         hora := hora
         estado := "CONFIRMADA"
         slotRow := slotRow
         calendarEventId := "" }] }

end Sheets

/-! ## Claim C1: concurrent claims on one row

`reserveSlotRow` performs two separate awaited Sheets API calls: a
`values.get` of the row followed (when the status check passes) by a
`values.update`.  Nothing in the service serialises the two calls per row,
so a concurrent execution of two claims interleaves the four store accesses
arbitrarily.  `Race.stepInv` is exactly `reserveSlotRow` cut at its await
points (the faithfulness theorem `Race.run_alone_eq_reserveSlotRow` below
proves the two atomic accesses compose back to `Sheets.reserveSlotRow`),
and `Race.runSched` runs two invocations under an arbitrary schedule. -/

namespace Race

/-- Control point of one in-flight `reserveSlotRow` invocation: before the
read; after a passed check, holding the row just read; or finished. -/
inductive Pc
  | toRead
  | toWrite (cur : SlotRow)
  | finished (res : Bool)
deriving DecidableEq, Repr

/-- One in-flight invocation of `reserveSlotRow`. -/
structure Inv where
  row : Nat
  phone : String
  service : String
  nowIso : String
  pc : Pc
deriving DecidableEq, Repr

/-- Execute the next atomic store access of one invocation: the read/check
(`values.get` plus the status test, which is local computation), or the
write (`values.update`). -/
def stepInv (st : Store) (inv : Inv) : Store × Inv :=
  match inv.pc with
  | .toRead =>
    if inv.row == 0 then (st, { inv with pc := .finished false })
    else
      let cur := st.rowAt inv.row
      let estadoActual := jsToUpper cur.estado
      if estadoActual ≠ "" ∧ estadoActual ≠ "DISPONIBLE" then
        (st, { inv with pc := .finished false })
      else (st, { inv with pc := .toWrite cur })
  | .toWrite cur =>
    ({ st with slots :=
        (st.slots.set (inv.row - 2)
          { cur with servicio := inv.service, estado := "RESERVADO", notas := "",
                     reservadoPor := onlyDigits inv.phone, fechaTs := inv.nowIso }) },
      { inv with pc := .finished true })
  | .finished _ => (st, inv)

/-- Run a schedule over two invocations; `false` steps the first, `true`
steps the second. -/
def runSched : List Bool → Store → Inv → Inv → Store × Inv × Inv
  | [], st, a, b => (st, a, b)
  | c :: cs, st, a, b =>
    if c then
      let p := stepInv st b
      runSched cs p.1 a p.2
    else
      let p := stepInv st a
      runSched cs p.1 p.2 b

end Race

/-! ## Claim C9: the business-day computation

`getNextWorkingDays` walks a cursor built as `new Date(Date.UTC(y, m-1, d))`
from `todayYMD()` (the *local* civil date of "now" in the configured zone,
default `America/La_Paz`), advancing it by 24h per iteration, and renders /
tests each cursor value through `Intl.DateTimeFormat` with that time zone.

The zone `America/La_Paz` is UTC−4 with no daylight saving, so formatting a
UTC-midnight instant in it yields the *previous* civil date (00:00 UTC is
20:00 of the preceding local day).  This environment fact is part of the
model:

* `ymdLocal(cursor)` = `prevYmd` of the cursor's UTC civil date;
* the source's `shiftDays(ymd, n)` builds a UTC-midnight date, adds `n`
  days and formats it with `ymdLocal`, so it computes `ymd + n - 1` days —
  this is `shiftDays` below, and is why the moveable feasts it feeds into
  the holiday set are each one day early (the line commented
  "Viernes Santo" produces Maundy Thursday, etc.);
* the Sunday test formats the same instant with `weekday` in the same
  zone, so it tests the weekday of the same (previous) civil date; the
  cursor model `LCur` therefore carries the local civil date together with
  its weekday, stepped consistently.

The civil-date successor used by the `Date` arithmetic is the Gregorian
calendar (`nextYmd`/`prevYmd`); the correlation between the start date and
its weekday is an input (it comes from the platform clock), taken as
`todayW` = weekday of `today`, 0 = Sunday. -/

namespace Dates

/-- A Gregorian civil date. -/
structure Ymd where
  y : Nat
  m : Nat
  d : Nat
deriving DecidableEq, Repr

/-- Gregorian leap-year rule. -/
def isLeap (y : Nat) : Bool := (y % 4 == 0 && y % 100 != 0) || y % 400 == 0

/-- Length of month `m` in year `y`. -/
def daysInMonth (y m : Nat) : Nat :=
  if m == 2 then (if isLeap y then 29 else 28)
  else if m == 4 || m == 6 || m == 9 || m == 11 then 30
  else 31

/-- Next civil date. -/
def nextYmd (x : Ymd) : Ymd :=
  if x.d < daysInMonth x.y x.m then ⟨x.y, x.m, x.d + 1⟩
  else if x.m < 12 then ⟨x.y, x.m + 1, 1⟩
  else ⟨x.y + 1, 1, 1⟩

/-- Previous civil date. -/
def prevYmd (x : Ymd) : Ymd :=
  if 1 < x.d then ⟨x.y, x.m, x.d - 1⟩
  else if 1 < x.m then ⟨x.y, x.m - 1, daysInMonth x.y (x.m - 1)⟩
  else ⟨x.y - 1, 12, 31⟩

/-- `dt.getTime() + n * 24*60*60*1000` on a UTC-midnight date: add `n`
civil days. -/
def addDays (x : Ymd) (n : Int) : Ymd :=
  if 0 ≤ n then nextYmd^[n.toNat] x else prevYmd^[(-n).toNat] x

/-- `SheetsService.easterYMD`: Meeus' algorithm for the Gregorian Easter
Sunday, translated literally (every intermediate value is non-negative, so
JS `Math.floor`/`%` and the integer operations below agree). -/
def easterYMD (yr : Nat) : Ymd :=
  let y : Int := yr
  let a := y % 19
  let b := y / 100
  let c := y % 100
  let d := b / 4
  let e := b % 4
  let f := (b + 8) / 25
  let g := (b - f + 1) / 3
  let h := (19 * a + b - d - g + 15) % 30
  let i := c / 4
  let k := c % 4
  let l := (32 + 2 * e + 2 * i - h - k) % 7
  let m := (a + 11 * h + 22 * l) / 451
  let month := (h + l - 7 * m + 114) / 31
  let day := (h + l - 7 * m + 114) % 31 + 1
  ⟨yr, month.toNat, day.toNat⟩

/-- `SheetsService.shiftDays`: parse `ymd`, build the UTC-midnight date,
add `n` days, then format with `ymdLocal` — which renders the previous
civil day (see the section comment).  Net effect: `ymd + n - 1` days. -/
def shiftDays (x : Ymd) (n : Int) : Ymd := prevYmd (addDays x n)

/-- The holiday set built by `isHolidayOrSunday` for the year of the date
under test: fixed national and Santa Cruz dates plus the four
`shiftDays`-derived moveable entries (commented in the source as Carnival
Monday/Tuesday, Good Friday and Corpus Christi). -/
def holidaySet (y : Nat) : List Ymd :=
  [⟨y, 1, 1⟩, ⟨y, 5, 1⟩, ⟨y, 6, 21⟩, ⟨y, 8, 6⟩, ⟨y, 11, 2⟩, ⟨y, 12, 25⟩,
   ⟨y, 9, 24⟩,
   shiftDays (easterYMD y) (-48), shiftDays (easterYMD y) (-47),
   shiftDays (easterYMD y) (-2), shiftDays (easterYMD y) 60]

/-- The loop cursor as observed through `Intl`: the local civil date the
formatter renders for the UTC-midnight instant, with its weekday
(0 = Sunday). -/
structure LCur where
  date : Ymd
  w : Nat
deriving DecidableEq, Repr

/-- `SheetsService.isHolidayOrSunday`: Sunday in the local zone, or the
locally-rendered date is in the computed holiday set of its year. -/
def isHolidayOrSunday (c : LCur) : Bool :=
  c.w == 0 || (holidaySet c.date.y).contains c.date

/-- Advance the cursor one day. -/
def nextCur (c : LCur) : LCur := ⟨nextYmd c.date, (c.w + 1) % 7⟩

/-- The `while (out.length < n)` loop body of `getNextWorkingDays`,
fuel-indexed (the source loop has no bound; `none` means the given fuel was
not enough to collect `n` days). -/
def getNextWorkingDaysGo (n : Nat) : Nat → LCur → List Ymd → Option (List Ymd)
  | 0, _, acc => if n ≤ acc.length then some acc else none
  | fuel + 1, cur, acc =>
    if n ≤ acc.length then some acc
    else
      getNextWorkingDaysGo n fuel (nextCur cur)
        (if isHolidayOrSunday cur then acc else acc ++ [cur.date])

/-- `SheetsService.getNextWorkingDays`: starting from `Date.UTC` of the
local today (whose locally-rendered date is `prevYmd today`, weekday
shifted accordingly), collect the first `n` cursor dates that are neither
Sunday nor in the computed holiday set. -/
def getNextWorkingDays (n : Nat) (today : Ymd) (todayW : Nat) (fuel : Nat) :
    Option (List Ymd) :=
  getNextWorkingDaysGo n fuel ⟨prevYmd today, (todayW + 6) % 7⟩ []

end Dates

/-! ## The conversation orchestrator (`WhatsappService` of the
`server.js`-adjacent variant — the file that pairs `handleSlotRowSelected`
with `sendSlotsPaged` pagination and a phone-confirmation button step)

The per-recipient maps `userStates` / `forms` are modelled by the single
recipient's entries (`UserState`, `Option FormState`): the orchestrator
never reads another recipient's entries, so a step is a pure function of
them.  Outbound sends (`sendMessage` / `sendButtons` / `sendListMessage` /
`sendContact` and the PDF delivery block) are modelled as emitted `Out`
values; the HTTP sends are always awaited and their failure fallbacks never
alter state or the store.  `sheets.getNextWorkingDays(7)` does not read the
mutable tabs, so its value for the deployment's "today" is supplied in the
context (`Ctx.workingDays`); its own embedding is `Dates.getNextWorkingDays`
above. -/

namespace Bot

/-- `UserState` of the orchestrator variant. -/
structure UserState where
  state : String
  serviceType : Option String := none
  chosenDay : Option String := none
  appointmentDate : Option String := none
  appointmentTime : Option String := none
  lastOfferedSlots : Option (List SlotOffered) := none
  slotsPage : Option Nat := none
  updatedAt : Option Nat := none
  currentStep : Option Nat := none
  totalSteps : Option Nat := none
deriving DecidableEq, Repr

/-- `ClientData` (the form's collected fields; the orchestrator variant
writes only `nombre`/`telefono`/`email`). -/
structure ClientData where
  nombre : Option String := none
  telefono : Option String := none
  email : Option String := none
  servicio : Option String := none
  fecha : Option String := none
  hora : Option String := none
deriving DecidableEq, Repr

/-- Result of a field's `validate`: `true` or a human-readable error. -/
inductive VRes
  | ok
  | err (msg : String)
deriving DecidableEq, Repr

/-- A `FormField`: key, prompt (receiving the autofilled phone as its
context), validator, optional normalizer. -/
structure FormField where
  key : String
  prompt : String → String
  validate : String → VRes
  normalize : Option (String → String) := none
  optional : Bool := false

/-- The letters accepted by the name regex beyond ASCII. -/
def nombreExtraChars : List Char := "ÁÉÍÓÚÜÑáéíóúüñ".data

/-- Character class of `/^[A-Za-zÁÉÍÓÚÜÑáéíóúüñ ]+$/`. -/
def nombreCharOk (c : Char) : Bool :=
  c.isAlpha || nombreExtraChars.contains c || c == ' '

/-- `val.split(/\s+/).filter(Boolean)`. -/
def splitWords (s : String) : List String :=
  ((s.data.splitOnP jsSpace).filter (· ≠ [])).map String.mk

/-- The name field's `validate`. -/
def nombreValidate (v : String) : VRes :=
  let val := jsTrim v
  if val.data.isEmpty || !(val.data.all nombreCharOk) then
    .err "Usa solo letras y espacios (ej. María González)."
  else
    let parts := splitWords val
    if parts.length < 2 || parts.any (fun p => p.data.length < 2) then
      .err "Escribe nombre y apellido (ej. María González)."
    else .ok

/-- The phone field's digit extraction and `591` country-prefix strip,
shared by its `validate` and `normalize`. -/
def telefonoNormalize (v : String) : String :=
  let digits := onlyDigits v
  if jsStartsWith digits "591" then jsDrop digits 3 else digits

/-- `/^\d{8}$/.test(s)`. -/
def digits8 (s : String) : Bool :=
  s.data.length == 8 && s.data.all Char.isDigit

/-- The phone field's `validate` (it recomputes the normalization of its
own argument before testing the 8-digit pattern). -/
def telefonoValidate (v : String) : VRes :=
  if digits8 (telefonoNormalize v) then .ok
  else .err "Número inválido. Usa 8 dígitos (ej. 65900645)."

/-- Character class of the email regex's local part. -/
def emailLocalChar (c : Char) : Bool :=
  ('a' ≤ c ∧ c ≤ 'z') || c.isDigit || c == '.' || c == '_' || c == '%' ||
    c == '+' || c == '-'

/-- Character class of the email regex's domain part. -/
def emailDomChar (c : Char) : Bool :=
  ('a' ≤ c ∧ c ≤ 'z') || c.isDigit || c == '.' || c == '-'

/-- `/^[a-z0-9._%+-]+@[a-z0-9.-]+\.[a-z]{2,}$/` on an already lower-cased
string: exactly one `@`; non-empty class-restricted local part; the rest
splits (at some dot, matching the regex's backtracking) into a non-empty
domain over `[a-z0-9.-]` and a final label of 2+ letters. -/
def emailRegexTest (s : String) : Bool :=
  match s.data.splitOnP (· == '@') with
  | [localPart, rest] =>
    !localPart.isEmpty && localPart.all emailLocalChar &&
      (List.range rest.length).any fun i =>
        (rest.get? i == some '.') && !(rest.take i).isEmpty &&
          (rest.take i).all emailDomChar &&
          decide (2 ≤ (rest.drop (i + 1)).length) &&
          (rest.drop (i + 1)).all fun c => decide ('a' ≤ c) && decide (c ≤ 'z')
  | _ => false

/-- The email field's `validate` (the source lower-cases and trims before
testing its case-insensitive regex). -/
def emailValidate (v : String) : VRes :=
  if emailRegexTest (jsToLower (jsTrim v)) then .ok
  else .err "Email inválido (ej. nombre@ejemplo.com)."

/-- The email field's `normalize`. -/
def emailNormalize (v : String) : String := jsToLower (jsTrim v)

/-- `FORM_APPT`: the three-field appointment form. -/
def FORM_APPT : List FormField :=
  [{ key := "nombre"
     prompt := fun _ => "Para agendar tu cita ¿Cuál es tu *nombre y apellido*?"
     validate := nombreValidate },
   { key := "telefono"
     prompt := fun auto =>
       "Muchas gracias, ¿Confirmas este *número* para contactarte: *" ++
         auto ++ "*?"
     validate := telefonoValidate
     normalize := some telefonoNormalize },
   { key := "email"
     prompt := fun _ => "¿Cuál es tu *email* para enviarte la confirmación?"
     validate := emailValidate
     normalize := some emailNormalize }]

/-- The active form of one recipient (`forms.get(from)`); `schema` is always
`FORM_APPT` in the source and here. -/
structure FormState where
  idx : Nat
  data : ClientData
  schema : List FormField
  serviceType : String
  slots : List SlotOffered
  autofilledPhone : String
  awaitingPhoneManual : Bool := false

/-- `(f.data as any)[field.key] = v`. -/
def setField (data : ClientData) (key v : String) : ClientData :=
  if key == "nombre" then { data with nombre := some v }
  else if key == "telefono" then { data with telefono := some v }
  else if key == "email" then { data with email := some v }
  else data

/-- An outbound notification: plain text, quick-reply buttons, a list
message (id/title rows), a vCard contact, or the receipt-delivery attempt
(the PDF generation/upload/fallback block, whose branching involves only
external collaborators and never touches state or store). -/
inductive Out
  | text (dest msg : String)
  | buttons (dest msg : String) (ids : List (String × String))
  | list (dest msg btn : String) (rows : List (String × String))
  | contact (dest name phone : String)
  | receipt (dest : String)
deriving DecidableEq, Repr

/-- Per-event context: the sender's address, `Date.now()`, the ISO
timestamp written by claims, and the value of
`sheets.getNextWorkingDays(7)` for the deployment's today. -/
structure Ctx where
  fromAddr : String
  now : Nat
  nowIso : String
  workingDays : List String

/-- One inbound event: the message text and, for interactive replies, the
tapped button/list-row id. -/
structure Event where
  text : String
  buttonId : Option String := none
deriving DecidableEq, Repr

/-- Result of one orchestrator step: the recipient's `userStates` entry,
`forms` entry, the spreadsheet, the messages sent, and the webhook reply
text. -/
structure StepResult where
  us : UserState
  form : Option FormState
  store : Store
  outs : List Out
  reply : String

def COMPANY_NAME : String :=
  "Russell Bedford Bolivia Encinas Auditores y Consultores SRL"

def COMPANY_PHONE : String := "+59170400175"

def COMPANY_HOURS_TEXT : String :=
  "Nuestro horario de atención es de *Lunes a Viernes* de *08:00–12:00 y 14:30–18:30*"

def COMPANY_LOCATION_TEXT : String :=
  "Nuestra ubicación es: \n 📍 Russell Bedford Bolivia – Encinas Auditores y Consultores SRL\nhttps://maps.app.goo.gl/TU82fjJzHG3RBAbTA"

/-- One catalog entry of `SERVICE_CATALOG`. -/
structure CatalogEntry where
  id : String
  label : String
  aliases : List String

def SERVICE_CATALOG : List CatalogEntry :=
  [{ id := "tributario", label := "Asesoría Tributaria",
     aliases := ["impuestos", "fiscal", "sat", "tributaria"] },
   { id := "legal", label := "Asesoría Legal",
     aliases := ["contrato", "abogado", "ley", "juridico", "jurídico"] },
   { id := "laboral", label := "Asesoría Laboral",
     aliases := ["empleo", "trabajo", "contratación", "despido"] },
   { id := "conta", label := "Contabilidad",
     aliases := ["contable", "libros", "declaraciones", "facturación", "facturacion"] },
   { id := "sistemas", label := "Sistemas Informáticos",
     aliases := ["software", "redes", "informática", "informatica", "tecnología", "tecnologia"] }]

/-- One advisor area of `ADVISOR_AREAS`. -/
structure AdvisorArea where
  id : String
  title : String
  name : String
  phone : String

def ADVISOR_AREAS : List AdvisorArea :=
  [{ id := "area_tributario", title := "Tributario", name := "Asesor de Tributario", phone := COMPANY_PHONE },
   { id := "area_legal", title := "Legal", name := "Asesor de Legal", phone := COMPANY_PHONE },
   { id := "area_laboral", title := "Laboral", name := "Asesor de Laboral", phone := COMPANY_PHONE },
   { id := "area_conta", title := "Contabilidad", name := "Asesor de Contabilidad", phone := COMPANY_PHONE },
   { id := "area_sistemas", title := "Sistemas", name := "Asesor de Sistemas", phone := COMPANY_PHONE }]

/-- NFD-decompose-and-strip-marks for the Spanish letters in play (the
`normalize('NFD').replace(/[̀-ͯ]/g, '')` step). -/
def stripAccentChar (c : Char) : Char :=
  if c == 'á' then 'a' else if c == 'é' then 'e' else if c == 'í' then 'i'
  else if c == 'ó' then 'o' else if c == 'ú' then 'u' else if c == 'ü' then 'u'
  else if c == 'ñ' then 'n'
  else if c == 'Á' then 'A' else if c == 'É' then 'E' else if c == 'Í' then 'I'
  else if c == 'Ó' then 'O' else if c == 'Ú' then 'U' else if c == 'Ü' then 'U'
  else if c == 'Ñ' then 'N' else c

/-- The orchestrator's `normalize`: strip accents, lower-case, trim. -/
def normalizeText (t : String) : String :=
  jsTrim (jsToLower (String.mk (t.data.map stripAccentChar)))

/-- Alias-scored match of free text against one catalog entry. -/
def catalogScore (n : String) (s : CatalogEntry) : Nat :=
  (if jsIncludes n (normalizeText s.label) then 3 else 0) +
    (s.aliases.filter fun a => jsIncludes n (normalizeText a)).length

/-- `findServiceFromText`: best strictly-greater score wins, ties keep the
earlier catalog entry; `null` when no entry scores. -/
def findServiceFromText (text : String) : Option (String × String) :=
  let n := normalizeText text
  let best := SERVICE_CATALOG.foldl
    (fun best s =>
      let score := catalogScore n s
      if score > 0 then
        match best with
        | none => some (s.id, s.label, score)
        | some b => if score > b.2.2 then some (s.id, s.label, score) else best
      else best)
    (none : Option (String × String × Nat))
  best.map fun b => (b.1, b.2.1)

/-- `buildSlotPages` chunking loop, fuelled by the list length (each step
drops 9 ≥ 1 elements of a non-empty list). -/
def chunk9 : Nat → List SlotOffered → List (List SlotOffered)
  | 0, _ => []
  | fuel + 1, l => if l.isEmpty then [] else l.take 9 :: chunk9 fuel (l.drop 9)

/-- `buildSlotPages(slots, 9)` (every call site uses the default page size 9). -/
def buildSlotPages (slots : List SlotOffered) : List (List SlotOffered) :=
  chunk9 slots.length slots

/-- `sendSlotsPaged`: render one page of the offered slots as a list
message, with `more_` pagination controls mirroring the source (including
the `splice` dropping the second-to-last row when the `Anterior` control
overflows the 10-row limit). -/
def sendSlotsPaged (ctx : Ctx) (dayYMD : String) (slots : List SlotOffered)
    (pageIdx : Nat) : List Out :=
  let pages := buildSlotPages slots
  let safePage := min pageIdx (pages.length - 1)
  let page := (pages.get? safePage).getD []
  let rows0 := page.map fun s => ("slot_" ++ natToStr s.row, s.time)
  let rows1 :=
    if pages.length > 1 ∧ safePage < pages.length - 1 then
      rows0 ++ [("more_" ++ natToStr (safePage + 1), "Siguiente ▷")]
    else rows0
  let rows2 :=
    if pages.length > 1 ∧ safePage > 0 then
      let r := ("more_" ++ natToStr (safePage - 1), "◁ Anterior") :: rows1
      if r.length > 10 then r.eraseIdx (r.length - 2) else r
    else rows1
  let pageSuffix :=
    if pages.length > 1 then
      "\n(Página " ++ natToStr (safePage + 1) ++ "/" ++ natToStr pages.length ++ ")"
    else ""
  [Out.list ctx.fromAddr
    ("📅 *" ++ dayYMD ++ "* — elige una *hora* disponible:" ++ pageSuffix)
    "Elegir hora" rows2]

/-- `sendMainMenuList`. -/
def sendMainMenuList (ctx : Ctx) : List Out :=
  [Out.list ctx.fromAddr "¿En qué te puedo ayudar?" "Abrir menú"
    [("ver_servicios", "🧾 Ver servicios"), ("agendar_cita", "📅 Agendar cita"),
     ("hablar_asesor", "👤 Hablar con asesor"), ("horario", "🕒 Horario"),
     ("ubicacion", "📍 Ubicación")]]

/-- `sendWelcomeButtons`. -/
def sendWelcomeButtons (ctx : Ctx) : List Out :=
  [Out.buttons ctx.fromAddr
    ("👋 Bienvenido a *" ++ COMPANY_NAME ++ "*.\nPara agendar, primero elige el *tipo de servicio*.")
    [("ver_servicios", "🧾 Ver servicios")]]

/-- `sendServiceOptions`. -/
def sendServiceOptions (ctx : Ctx) : List Out :=
  [Out.list ctx.fromAddr "Selecciona el *tipo de servicio* que necesitas:" "Ver servicios"
    [("serv_Asesoría_Tributaria", "Asesoría Tributaria"),
     ("serv_Asesoría_Legal", "Asesoría Legal"),
     ("serv_Asesoría_Laboral", "Asesoría Laboral"),
     ("serv_Contabilidad", "Contabilidad"),
     ("serv_Sistemas_Informáticos", "Sistemas Informáticos")]]

/-- `sendNext7Days`: render `sheets.getNextWorkingDays(7)` as `day_` rows. -/
def sendNext7Days (ctx : Ctx) : List Out :=
  [Out.list ctx.fromAddr "Elige el *día* de tu cita:" "Elegir día"
    (ctx.workingDays.map fun d => ("day_" ++ d, d))]

/-- `getHelpMessage`. -/
def getHelpMessage (currentState : String) : String :=
  if currentState == "initial" then "Escribe \"hola\" para comenzar."
  else if currentState == "awaiting_service_type" then "Selecciona un servicio de la lista."
  else if currentState == "awaiting_day_choice" then "Elige un día (sólo próximos 7 días hábiles)."
  else if currentState == "awaiting_time_choice" then "Elige la hora disponible del día que seleccionaste."
  else "Escribe \"hola\" para comenzar o \"cancelar\" para reiniciar."

end Bot

namespace Bot

/-- `startForm`: seed the form with the claimed slot, autofilling the phone
from the sender address (stripping a `591` country prefix). -/
def startForm (ctx : Ctx) (serviceType : String) (slots : List SlotOffered) :
    FormState :=
  let digits := onlyDigits ctx.fromAddr
  let normalized := if jsStartsWith digits "591" then jsDrop digits 3 else digits
  { idx := 0
    data := { telefono := some normalized }
    schema := FORM_APPT
    serviceType := serviceType
    slots := slots
    autofilledPhone := normalized
    awaitingPhoneManual := false }

/-- `askNext`: prompt the current field; the phone field (when not in
manual-entry mode) is asked with Sí/No confirmation buttons.  (When `idx`
is past the schema the source would dereference `undefined`; every call
site keeps `idx` in range.) -/
def askNext (ctx : Ctx) (form : Option FormState) : List Out :=
  match form with
  | none => []
  | some f =>
    match f.schema.get? f.idx with
    | none => []
    | some field =>
      if field.key == "telefono" ∧ f.awaitingPhoneManual = false then
        [Out.buttons ctx.fromAddr
          (field.prompt f.autofilledPhone ++ "\n\nElige una opción:")
          [("tel_yes", "Sí, usar este"), ("tel_no", "No, ingresar otro")]]
      else [Out.text ctx.fromAddr (field.prompt f.autofilledPhone)]

/-- The summary + Confirmar/Editar buttons shown when the last field is
accepted. -/
def summaryOut (ctx : Ctx) (f : FormState) : List Out :=
  let slot0 := (f.slots.head?).getD { row := 0, date := "", time := "", label := "" }
  [Out.buttons ctx.fromAddr
    ("📋 *Revisa tu solicitud:*\n\n🧾 *Servicio:* " ++ f.serviceType ++
      "\n📅 *Fecha:* " ++ slot0.date ++ "\n🕒 *Hora:* " ++ slot0.time ++
      "\n\n👤 *Nombre:* " ++ (f.data.nombre.getD "") ++
      "\n📞 *Teléfono:* " ++ (f.data.telefono.getD "") ++
      "\n✉️ *Email:* " ++ (f.data.email.getD "") ++
      "\n\n¿Confirmas para guardar en agenda?")
    [("confirm_yes", "✅ Confirmar"), ("confirm_edit", "✏️ Editar")]]

/-- `handleFormInput`: the FormEngine step.  The phone field in
manual-entry mode validates the *raw* input and stores its normalization;
the normal flow normalizes first, validates the normalized value, and on
success stores it (trimmed) and advances `idx` by one — rendering the
summary when the schema is exhausted. -/
def handleFormInput (ctx : Ctx) (store : Store) (us : UserState)
    (form : Option FormState) (text : String) : StepResult :=
  match form with
  | none => { us := us, form := none, store := store, outs := [], reply := "" }
  | some f =>
    match f.schema.get? f.idx with
    | none =>
      -- the source would fault reading `schema[idx].key` here; `idx` stays
      -- in range on every reachable path of the claims below
      { us := us, form := some f, store := store, outs := [], reply := "" }
    | some field =>
      if field.key == "telefono" ∧ f.awaitingPhoneManual = true then
        match field.validate text with
        | .err m =>
          { us := us, form := some f, store := store, outs := [], reply := m }
        | .ok =>
          let normalized := (field.normalize.getD id) text
          let f1 := { f with
            data := setField f.data field.key (jsTrim normalized)
            awaitingPhoneManual := false
            idx := f.idx + 1 }
          { us := us, form := some f1, store := store
            outs := askNext ctx (some f1), reply := "" }
      else
        let value := (field.normalize.getD id) text
        match field.validate value with
        | .err m =>
          { us := us, form := some f, store := store, outs := [], reply := m }
        | .ok =>
          let f1 := { f with
            data := setField f.data field.key (jsTrim value)
            idx := f.idx + 1 }
          if f.schema.length ≤ f1.idx then
            { us := us, form := some f1, store := store
              outs := summaryOut ctx f1, reply := "" }
          else
            { us := us, form := some f1, store := store
              outs := askNext ctx (some f1), reply := "" }

/-- Greeting keywords of `handleInitialMessage`'s regex alternation. -/
def GREETINGS : List String :=
  ["hola", "buenas", "hello", "hi", "buenos días", "buenas tardes",
   "buenas noches", "inicio", "empezar"]

/-- JS `\w` (ASCII word character). -/
def jsWordChar (c : Char) : Bool := c.isAlpha || c.isDigit || c == '_'

/-- `/(^|\b)kw/` for a keyword starting with a word character: the keyword
occurs at the start or right after a non-word character. -/
def regexHead (t kw : String) : Bool :=
  (List.range (t.data.length + 1)).any fun i =>
    charsIsPrefixOf kw.data (t.data.drop i) &&
      (i == 0 || !jsWordChar ((t.data.get? (i - 1)).getD ' '))

/-- `/(^|\b)kw(\b|$)/` for a keyword starting and ending with word
characters. -/
def regexWord (t kw : String) : Bool :=
  (List.range (t.data.length + 1)).any fun i =>
    charsIsPrefixOf kw.data (t.data.drop i) &&
      (i == 0 || !jsWordChar ((t.data.get? (i - 1)).getD ' ')) &&
      (i + kw.data.length == t.data.length ||
        !jsWordChar ((t.data.get? (i + kw.data.length)).getD ' '))

/-- `handleInitialMessage`: greeting → welcome + main menu and
`awaiting_service_type`; thanks/farewell → courtesy text; recognised
service alias → `awaiting_day_choice` with the day list; otherwise the
fallback nudge. -/
def handleInitialMessage (ctx : Ctx) (store : Store) (us : UserState)
    (form : Option FormState) (text : String) : StepResult :=
  let t := jsTrim (jsToLower text)
  if GREETINGS.any (regexWord t ·) then
    { us := { state := "awaiting_service_type", updatedAt := some ctx.now }
      form := form, store := store
      outs := [Out.text ctx.fromAddr
          ("Hola, soy el *Asistente Virtual* de *" ++ COMPANY_NAME ++ "*.")] ++
        sendMainMenuList ctx
      reply := "" }
  else if jsIncludes t "gracias" then
    { us := us, form := form, store := store, outs := []
      reply := "¡Gracias a ti! ¿Necesitas algo más? Escribe \"hola\" para volver al menú." }
  else if jsIncludes t "adiós" || jsIncludes t "chao" ||
      jsIncludes t "hasta luego" || jsIncludes t "bye" then
    { us := us, form := form, store := store, outs := []
      reply := "¡Hasta luego! Si necesitas algo más, escribe \"hola\"." }
  else
    match findServiceFromText t with
    | some m =>
      { us := { state := "awaiting_day_choice", serviceType := some m.2,
                currentStep := some 1, totalSteps := some 5,
                updatedAt := some ctx.now }
        form := form, store := store, outs := sendNext7Days ctx, reply := "" }
    | none =>
      { us := us, form := form, store := store, outs := []
        reply := "🤔 No entendí tu mensaje. Escribe \"hola\" para empezar o toca *Ver servicios*." }

/-- `handleServiceSelection`. -/
def handleServiceSelection (ctx : Ctx) (store : Store) (us : UserState)
    (form : Option FormState) (text : String) : StepResult :=
  if ["ver servicios", "servicios", "agendar cita", "agendar_cita"].contains
      (jsTrim (jsToLower text)) then
    { us := us, form := form, store := store, outs := sendServiceOptions ctx
      reply := "" }
  else
    let matched := findServiceFromText text
    let us1 := { us with
      serviceType := some (match matched with | some m => m.2 | none => text)
      state := "awaiting_day_choice"
      currentStep := some 1
      totalSteps := some 5
      updatedAt := some ctx.now }
    { us := us1, form := form, store := store, outs := sendNext7Days ctx
      reply := "" }

/-- `handleDaySelected`: re-validate the picked day against the current
working-day window, re-query the open slots of that date, store them as the
offered set and render page 0 (or re-offer the day list when none). -/
def handleDaySelected (ctx : Ctx) (store : Store) (us : UserState)
    (form : Option FormState) (dayYMD : String) : StepResult :=
  if !(ctx.workingDays.contains dayYMD) then
    { us := us, form := form, store := store, outs := sendNext7Days ctx
      reply := "" }
  else
    let us1 := { us with
      chosenDay := some dayYMD
      state := "awaiting_time_choice"
      currentStep := some 2
      updatedAt := some ctx.now }
    let slots := Sheets.getSlotsForDate store.slots dayYMD
    if slots.isEmpty then
      { us := us1, form := form, store := store
        outs := [Out.text ctx.fromAddr
            ("No hay horarios disponibles para *" ++ dayYMD ++ "*. Elige otro día.")] ++
          sendNext7Days ctx
        reply := "" }
    else
      let us2 := { us1 with lastOfferedSlots := some slots, slotsPage := some 0 }
      { us := us2, form := form, store := store
        outs := sendSlotsPaged ctx dayYMD slots 0, reply := "" }

/-- `handleSlotRowSelected`: remember the chosen slot from the offered set
(if present), attempt the claim on the tapped row unconditionally, and on
success record the appointment (time `''` when the row was not among the
offered slots) and start the form; on failure apologise and re-render a
fresh query of the same day (or the day list when it comes back empty). -/
def handleSlotRowSelected (ctx : Ctx) (store : Store) (us : UserState)
    (form : Option FormState) (row : Nat) : StepResult :=
  match us.chosenDay with
  | none =>
    { us := us, form := form, store := store, outs := []
      reply := "Primero elige un *día* de la lista." }
  | some day =>
    let chosenFromState := (us.lastOfferedSlots.getD []).find? (fun s => s.row == row)
    let res := Sheets.reserveSlotRow store row ctx.fromAddr
      (us.serviceType.getD "") ctx.nowIso
    if res.1 = false then
      let apology := Out.text ctx.fromAddr
        "Ese horario acaba de ocuparse 😕. Aquí tienes las *horas disponibles* actualizadas:"
      let slots := Sheets.getSlotsForDate res.2.slots day
      if slots.isEmpty then
        { us := us, form := form, store := res.2
          outs := [apology] ++ sendNext7Days ctx, reply := "" }
      else
        let us1 := { us with lastOfferedSlots := some slots, slotsPage := some 0 }
        { us := us1, form := form, store := res.2
          outs := [apology] ++ sendSlotsPaged ctx day slots 0, reply := "" }
    else
      let chosen := chosenFromState.getD
        { row := row, date := day, time := "", label := "" }
      let us1 := { us with
        appointmentDate := some day
        appointmentTime := some chosen.time
        state := "collecting_form"
        currentStep := some 3
        updatedAt := some ctx.now }
      let svc := match us.serviceType with
        | some s => if s == "" then "Servicio" else s
        | none => "Servicio"
      let f := startForm ctx svc [chosen]
      { us := us1, form := some f, store := res.2
        outs := askNext ctx (some f), reply := "" }

/-- Affirmation keywords of `handleAppointmentConfirmation`'s regex. -/
def SI_KEYWORDS : List String :=
  ["si", "sí", "agendar_si", "sí, agendar", "si, agendar"]

/-- `handleAppointmentConfirmation`. -/
def handleAppointmentConfirmation (ctx : Ctx) (store : Store) (us : UserState)
    (form : Option FormState) (text : String) : StepResult :=
  let t := jsTrim (jsToLower text)
  if SI_KEYWORDS.any (regexHead t ·) then
    let us1 := { us with
      state := "awaiting_service_type"
      currentStep := some 1
      totalSteps := some 5
      updatedAt := some ctx.now }
    { us := us1, form := form, store := store, outs := sendServiceOptions ctx
      reply := "" }
  else
    { us := { state := "initial", updatedAt := some ctx.now }
      form := none, store := store, outs := []
      reply := "De acuerdo. Si necesitas algo más escribe \"hola\"." }

/-- `finalizeFormConfirmation`: append the booking (date/time taken from
the form's remembered slot), confirm, attempt the PDF receipt, and reset
to `initial`.  The store append is the pure tab update; its transport
failure branch only changes the reply and is not modelled (no claim rests
on it). -/
def finalizeFormConfirmation (ctx : Ctx) (store : Store) (us : UserState)
    (form : Option FormState) : StepResult :=
  match form with
  | none =>
    { us := us, form := none, store := store, outs := []
      reply := "No tengo registro de tu solicitud. Escribe \"hola\" para comenzar." }
  | some f =>
    let slot0 := (f.slots.head?).getD { row := 0, date := "", time := "", label := "" }
    let store1 := Sheets.appendAppointmentRow store
      (f.data.telefono.getD "") (f.data.nombre.getD "") (f.data.email.getD "")
      (if f.serviceType == "" then "Sin especificar" else f.serviceType)
      slot0.date slot0.time
      (if slot0.row == 0 then "" else natToStr slot0.row)
      ctx.nowIso
    { us := { state := "initial", updatedAt := some ctx.now }
      form := none
      store := store1
      outs := [Out.text ctx.fromAddr
          ("✅ *¡Cita confirmada!*\n\nGracias por agendar con *" ++ COMPANY_NAME ++
            "*.\nTe esperamos el " ++ slot0.date ++ " a las " ++ slot0.time ++
            ".\n\nSi necesitas cancelar o reprogramar, contáctanos al +591 65900645."),
        Out.receipt ctx.fromAddr]
      reply := "¿Necesitas algo más? Escribe \"hola\" para volver al menú." }

/-- Truthiness of an optional string (`!st?.chosenDay`-style tests). -/
def falsyStr : Option String → Bool
  | none => true
  | some s => s == ""

/-- `handleButtonAction`: prefix dispatch (`day_`, `slot_`, `more_`),
the phone-confirmation buttons, and the fixed menu/button ids. -/
def handleButtonAction (ctx : Ctx) (store : Store) (us : UserState)
    (form : Option FormState) (bid : String) : StepResult :=
  if jsStartsWith bid "day_" then
    handleDaySelected ctx store us form (jsDrop bid 4)
  else if jsStartsWith bid "slot_" then
    handleSlotRowSelected ctx store us form (jsParseIntNat (jsDrop bid 5))
  else if jsStartsWith bid "more_" then
    let idx := jsParseIntNat (jsDrop bid 5)
    if falsyStr us.chosenDay || (us.lastOfferedSlots.getD []).isEmpty then
      { us := us, form := form, store := store, outs := []
        reply := "Primero elige un *día* de la lista." }
    else
      let us1 := { us with slotsPage := some idx }
      { us := us1, form := form, store := store
        outs := sendSlotsPaged ctx (us.chosenDay.getD "")
          (us.lastOfferedSlots.getD []) idx
        reply := "" }
  else if bid == "tel_yes" || bid == "tel_no" then
    match form with
    | none => { us := us, form := none, store := store, outs := [], reply := "" }
    | some f =>
      if bid == "tel_yes" then
        let f1 := { f with
          data := setField f.data "telefono" f.autofilledPhone
          awaitingPhoneManual := false
          idx := f.idx + 1 }
        { us := us, form := some f1, store := store
          outs := askNext ctx (some f1), reply := "" }
      else
        let f1 := { f with awaitingPhoneManual := true }
        { us := us, form := some f1, store := store
          outs := [Out.text ctx.fromAddr
            "Por favor, escribe tu *número de 8 dígitos* (se admite con o sin +591)."]
          reply := "" }
  else if bid == "inicio" then
    { us := { state := "awaiting_service_type", updatedAt := some ctx.now }
      form := form, store := store, outs := sendWelcomeButtons ctx, reply := "" }
  else if bid == "ver_servicios" then
    { us := us, form := form, store := store
      outs := sendServiceOptions ctx ++
        [Out.buttons ctx.fromAddr "¿Qué deseas hacer ahora?"
          [("inicio", "🏠 Inicio"), ("agendar_cita", "📅 Agendar Cita")]]
      reply := "" }
  else if bid == "agendar_cita" then
    { us := { us with state := "awaiting_service_type", updatedAt := some ctx.now }
      form := form, store := store
      outs := [Out.text ctx.fromAddr
          "Para agendar, primero elige el *tipo de servicio*."] ++
        sendServiceOptions ctx
      reply := "" }
  else if bid == "hablar_asesor" then
    { us := us, form := form, store := store
      outs := [Out.list ctx.fromAddr "¿Con qué *área* quieres hablar?" "Elegir área"
        (ADVISOR_AREAS.map fun a => (a.id, a.title))]
      reply := "" }
  else if bid == "horario" then
    { us := us, form := form, store := store
      outs := [Out.text ctx.fromAddr COMPANY_HOURS_TEXT], reply := "" }
  else if bid == "ubicacion" then
    { us := us, form := form, store := store
      outs := [Out.text ctx.fromAddr COMPANY_LOCATION_TEXT], reply := "" }
  else if bid == "confirm_yes" then
    match form with
    | some _ => finalizeFormConfirmation ctx store us form
    | none =>
      { us := us, form := none, store := store, outs := []
        reply := "No encontré un formulario activo para confirmar. Escribe \"hola\" para comenzar." }
  else if bid == "confirm_edit" then
    { us := us, form := form, store := store
      outs := [Out.buttons ctx.fromAddr "¿Qué te gustaría *editar*?"
        [("edit_nombre", "✏️ Nombre"), ("edit_telefono", "✏️ Teléfono"),
         ("edit_email", "✏️ Email")]]
      reply := "" }
  else if bid == "edit_nombre" || bid == "edit_telefono" || bid == "edit_email" then
    let key := jsDrop bid 5
    match form with
    | some f =>
      match f.schema.findIdx? (fun s => s.key == key) with
      | some i =>
        let f1 := { f with idx := i }
        { us := us, form := some f1, store := store
          outs := askNext ctx (some f1), reply := "" }
      | none =>
        { us := us, form := some f, store := store, outs := []
          reply := "No encontré el formulario activo. Escribe \"hola\" para comenzar de nuevo." }
    | none =>
      { us := us, form := none, store := store, outs := []
        reply := "No encontré el formulario activo. Escribe \"hola\" para comenzar de nuevo." }
  else if jsStartsWith bid "serv_" then
    let serviceType := String.mk ((jsDrop bid 5).data.map fun c =>
      if c == '_' then ' ' else c)
    let us1 := { us with
      serviceType := some serviceType
      state := "awaiting_day_choice"
      currentStep := some 1
      totalSteps := some 5
      updatedAt := some ctx.now }
    { us := us1, form := form, store := store, outs := sendNext7Days ctx
      reply := "" }
  else if jsStartsWith bid "area_" then
    match ADVISOR_AREAS.find? (fun a => a.id == bid) with
    | none =>
      { us := us, form := form, store := store, outs := []
        reply := "Área no reconocida." }
    | some a =>
      { us := us, form := form, store := store
        outs := [Out.text ctx.fromAddr
            ("Te comparto el contacto del *" ++ a.name ++ "* 👇"),
          Out.contact ctx.fromAddr a.name a.phone]
        reply := "" }
  else
    { us := us, form := form, store := store, outs := []
      reply := "No reconozco ese comando. Escribe \"hola\" para comenzar." }

/-- `generarRespuesta`: the single entry point.  Refresh `updatedAt`; a
text containing `cancelar` always resets to `initial` and discards the
form before anything else; `ayuda` returns the stage hint; then button
dispatch, then the active form, then the stage switch. -/
def generarRespuesta (ctx : Ctx) (store : Store) (us0 : Option UserState)
    (form : Option FormState) (ev : Event) : StepResult :=
  let us := { (us0.getD { state := "initial" }) with updatedAt := some ctx.now }
  let cleanedText := jsToLower (jsTrim ev.text)
  if jsIncludes cleanedText "cancelar" then
    { us := { state := "initial", updatedAt := some ctx.now }
      form := none, store := store, outs := []
      reply := "Has cancelado el proceso actual. Escribe \"hola\" para comenzar de nuevo." }
  else if jsIncludes cleanedText "ayuda" then
    { us := us, form := form, store := store, outs := []
      reply := getHelpMessage us.state }
  else
    match ev.buttonId with
    | some bid => handleButtonAction ctx store us form bid
    | none =>
      if form.isSome then handleFormInput ctx store us form ev.text
      else if us.state == "awaiting_service_type" then
        handleServiceSelection ctx store us form ev.text
      else if us.state == "awaiting_day_choice" then
        { us := us, form := form, store := store, outs := []
          reply := "Selecciona un *día* desde la lista que te envié." }
      else if us.state == "awaiting_time_choice" then
        { us := us, form := form, store := store, outs := []
          reply := "Elige una *hora* desde la lista enviada." }
      else if us.state == "awaiting_appointment_confirmation" then
        handleAppointmentConfirmation ctx store us form ev.text
      else handleInitialMessage ctx store us form ev.text

end Bot

/-- Appointment fields are untouched or unset (never newly set) by a
transition from `old` to `new`. -/
def apptPreserved (old new : Bot.UserState) : Prop :=
  (new.appointmentDate = old.appointmentDate ∨ new.appointmentDate = none) ∧
  (new.appointmentTime = old.appointmentTime ∨ new.appointmentTime = none)

/-! ## Theorems -/

theorem lexLe_total (a b : List Char) : lexLe a b = true ∨ lexLe b a = true := by
  induction a generalizing b with
  | nil => left; rfl
  | cons x xs ih =>
    cases b with
    | nil => right; rfl
    | cons y ys =>
      by_cases hxy : x.toNat < y.toNat
      · left; simp [lexLe, hxy]
      · by_cases hyx : y.toNat < x.toNat
        · right; simp [lexLe, hyx]
        · have := ih ys
          rcases this with h | h
          · left; simp [lexLe, hxy, hyx, h]
          · right; simp [lexLe, hxy, hyx, h]

theorem lexLe_trans (a b c : List Char) (hab : lexLe a b = true)
    (hbc : lexLe b c = true) : lexLe a c = true := by
  induction a generalizing b c with
  | nil => rfl
  | cons x xs ih =>
    cases b with
    | nil => simp [lexLe] at hab
    | cons y ys =>
      cases c with
      | nil => simp [lexLe] at hbc
      | cons z zs =>
        simp only [lexLe] at hab hbc ⊢
        by_cases hxy : x.toNat < y.toNat
        · by_cases hyz : y.toNat < z.toNat
          · have : x.toNat < z.toNat := Nat.lt_trans hxy hyz
            simp [this]
          · by_cases hzy : z.toNat < y.toNat
            · simp [hyz, hzy] at hbc
            · have hyz' : y.toNat = z.toNat := Nat.le_antisymm
                (Nat.le_of_not_lt hzy) (Nat.le_of_not_lt hyz)
              have : x.toNat < z.toNat := hyz' ▸ hxy
              simp [this]
        · by_cases hyx : y.toNat < x.toNat
          · simp [hxy, hyx] at hab
          · have hxy' : x.toNat = y.toNat := Nat.le_antisymm
              (Nat.le_of_not_lt hyx) (Nat.le_of_not_lt hxy)
            by_cases hyz : y.toNat < z.toNat
            · have : x.toNat < z.toNat := hxy' ▸ hyz
              simp [this]
            · by_cases hzy : z.toNat < y.toNat
              · simp [hyz, hzy] at hbc
              · have hxz : ¬ x.toNat < z.toNat := by
                  intro h; exact hyz (hxy' ▸ h)
                have hzx : ¬ z.toNat < x.toNat := by
                  intro h; exact hzy (hxy' ▸ h)
                simp only [hxy, hyx, if_neg, ite_false] at hab
                simp only [hyz, hzy, if_neg, ite_false] at hbc
                simp [hxz, hzx, ih ys zs hab hbc]

/-! ## Claim C6: the open-slots query -/

/-- C6.  For every date, `getSlotsForDate` returns exactly the rows of that
date whose status cell is blank (absent) or the open sentinel `DISPONIBLE`
— each materialised by `mkOffered` from its sheet position — and the
returned sequence is ordered by time ascending. -/
theorem getSlotsForDate_spec (slots : List SlotRow) (d : String) :
    (∀ s, s ∈ Sheets.getSlotsForDate slots d ↔
      ∃ i r, slots[i]? = some r ∧ jsTrim r.fecha = d ∧
        Sheets.estadoOpen r.estado = true ∧ s = Sheets.mkOffered i r) ∧
    (Sheets.getSlotsForDate slots d).Pairwise
      (fun a b => strLe a.time b.time = true) := by
  constructor
  · intro s
    unfold Sheets.getSlotsForDate
    simp only [List.mem_insertionSort, List.mem_filterMap]
    constructor
    · rintro ⟨⟨i, r⟩, hmem, hf⟩
      rw [List.mk_mem_enum_iff_getElem?] at hmem
      refine ⟨i, r, hmem, ?_⟩
      split at hf
      next hcond =>
        exact ⟨by simpa using hcond.1, by simpa using hcond.2,
          (Option.some_inj.mp hf).symm⟩
      next hcond => simp at hf
    · rintro ⟨i, r, hir, hd, hopen, hs⟩
      refine ⟨(i, r), List.mk_mem_enum_iff_getElem?.mpr hir, ?_⟩
      have hc : jsTrim r.fecha == d ∧ Sheets.estadoOpen r.estado := by
        constructor
        · simpa using hd
        · simpa using hopen
      simp [hc, hs]
  · unfold Sheets.getSlotsForDate
    letI : IsTotal SlotOffered (fun a b => strLe a.time b.time = true) :=
      ⟨fun a b => lexLe_total a.time.data b.time.data⟩
    letI : IsTrans SlotOffered (fun a b => strLe a.time b.time = true) :=
      ⟨fun a b c => lexLe_trans a.time.data b.time.data c.time.data⟩
    exact List.sorted_insertionSort _ _

/-! ## Claim C2: the claim operation's check-then-write contract -/

/-- C2.  `reserveSlotRow` re-reads the row and decides on the status just
read: if it is neither blank (absent) nor `DISPONIBLE` (after upper-casing)
the call returns `false` and the store is untouched; otherwise it returns
`true` and columns C..G of the row become the service type, `RESERVADO`,
blank notes, the claimant's phone digits and the timestamp — the bookings
ledger being unchanged in both cases. -/
theorem reserveSlotRow_contract (st : Store) (row : Nat)
    (phone service now : String) (r : SlotRow)
    (hrow : 2 ≤ row) (hr : st.slots.get? (row - 2) = some r) :
    (jsToUpper r.estado ≠ "" ∧ jsToUpper r.estado ≠ "DISPONIBLE" →
      Sheets.reserveSlotRow st row phone service now = (false, st)) ∧
    ((jsToUpper r.estado = "" ∨ jsToUpper r.estado = "DISPONIBLE") →
      Sheets.reserveSlotRow st row phone service now =
        (true,
          { st with slots :=
              (st.slots.set (row - 2)
                { r with servicio := service, estado := "RESERVADO", notas := "",
                         reservadoPor := onlyDigits phone, fechaTs := now }) })) := by
  have hne : (row == 0) = false := by
    cases row with
    | zero => omega
    | succ n => rfl
  have hcur : st.rowAt row = r := by
    unfold Store.rowAt
    have h2 : ¬ row < 2 := by omega
    rw [List.get?_eq_getElem?] at hr
    simp [h2, hr]
  constructor
  · intro hclosed
    unfold Sheets.reserveSlotRow
    simp [hne, hcur, hclosed]
  · intro hopen
    unfold Sheets.reserveSlotRow
    have : ¬ (jsToUpper r.estado ≠ "" ∧ jsToUpper r.estado ≠ "DISPONIBLE") := by
      rcases hopen with h | h <;> simp [h]
    simp [hne, hcur, this]

/-- Witness for C2 at a concrete sheet: a row whose status is `RESERVADO`
is refused with no write, and a blank-status row is claimed with the
expected C..G write. -/
theorem reserveSlotRow_contract_witness :
    (2 ≤ 2) ∧
    Sheets.reserveSlotRow
      { slots := [{ fecha := "2026-04-06", hora := "09:00", estado := "RESERVADO" }] }
      2 "+591 65900645" "Asesoría Legal" "t0" =
      (false,
        { slots := [{ fecha := "2026-04-06", hora := "09:00", estado := "RESERVADO" }] }) ∧
    Sheets.reserveSlotRow
      { slots := [{ fecha := "2026-04-06", hora := "09:00" }] }
      2 "+591 65900645" "Asesoría Legal" "t0" =
      (true,
        { slots := [{ fecha := "2026-04-06", hora := "09:00",
                      servicio := "Asesoría Legal", estado := "RESERVADO",
                      notas := "", reservadoPor := "59165900645", fechaTs := "t0" }] }) := by
  refine ⟨by decide, ?_, ?_⟩
  · exact (reserveSlotRow_contract
      { slots := [{ fecha := "2026-04-06", hora := "09:00", estado := "RESERVADO" }] }
      2 "+591 65900645" "Asesoría Legal" "t0"
      { fecha := "2026-04-06", hora := "09:00", estado := "RESERVADO" }
      (by decide) (by decide)).1 (by decide)
  · exact (reserveSlotRow_contract
      { slots := [{ fecha := "2026-04-06", hora := "09:00" }] }
      2 "+591 65900645" "Asesoría Legal" "t0"
      { fecha := "2026-04-06", hora := "09:00" }
      (by decide) (by decide)).2 (by decide)

namespace Race

/-- Faithfulness of the decomposition: one invocation run alone for its two
steps computes exactly `Sheets.reserveSlotRow`. -/
theorem run_alone_eq_reserveSlotRow (st : Store) (row : Nat)
    (phone service nowIso : String) :
    (let inv : Inv := { row, phone, service, nowIso, pc := .toRead }
     let p1 := stepInv st inv
     let p2 := stepInv p1.1 p1.2
     p2.2.pc = .finished (Sheets.reserveSlotRow st row phone service nowIso).1 ∧
     p2.1 = (Sheets.reserveSlotRow st row phone service nowIso).2) := by
  unfold stepInv Sheets.reserveSlotRow
  by_cases h0 : row == 0
  · simp [h0, stepInv]
  · simp only [h0, Bool.false_eq_true, if_false, ite_false]
    by_cases hclosed : jsToUpper (st.rowAt row).estado ≠ "" ∧
        jsToUpper (st.rowAt row).estado ≠ "DISPONIBLE"
    · simp [hclosed, stepInv]
    · simp [hclosed, stepInv]

end Race

/-- C1 (code bug).  The call site comments call `reserveSlotRow` a
"Reserva atómica", and the specified contract demands that concurrent
claims on the same row be a per-row critical section; the implementation
is an unguarded check-then-write.  On a sheet whose row 2 is `DISPONIBLE`,
running the two claims sequentially (schedule A,A,B,B) lets exactly one
succeed, but the interleaving A-read, B-read, A-write, B-write finishes
with BOTH invocations returning `true` on the same row — a double booking,
with the second write silently overwriting the first claimant. -/
theorem reserveSlotRow_race_double_success :
    (let st : Store := { slots := [{ fecha := "2026-04-06", hora := "09:00",
                                     estado := "DISPONIBLE" }] }
     let a : Race.Inv := { row := 2, phone := "70000001",
                           service := "Asesoría Legal", nowIso := "tA",
                           pc := .toRead }
     let b : Race.Inv := { row := 2, phone := "70000002",
                           service := "Contabilidad", nowIso := "tB",
                           pc := .toRead }
     let seqRun := Race.runSched [false, false, true, true] st a b
     let raceRun := Race.runSched [false, true, false, true] st a b
     (seqRun.2.1.pc = .finished true ∧ seqRun.2.2.pc = .finished false) ∧
     (raceRun.2.1.pc = .finished true ∧ raceRun.2.2.pc = .finished true) ∧
     (raceRun.1.rowAt 2).reservadoPor = "70000002") := by
  decide

set_option maxRecDepth 40000 in
/-- C9 (code bug).  The claim reads the holiday set as containing Carnival
Monday/Tuesday, Good Friday and Corpus Christi, as the source comments
assert — but `shiftDays` formats its UTC-midnight result in the UTC−4
zone, landing one day early, so the excluded moveable dates are Carnival
Sunday/Monday, Maundy Thursday and Corpus-eve instead.  Concretely for
2026 (Easter Sunday = April 5, so Good Friday = April 3): the set contains
April 2, not April 3, and with local today April 2, 2026 (a Thursday,
weekday 4) the seven "working days" returned include Good Friday April 3
(and start at April 1 — local yesterday — another effect of the same
shift).  Likewise Carnival Tuesday, February 17, 2026, is not excluded
while Carnival Sunday, February 15, is. -/
theorem getNextWorkingDays_returns_good_friday :
    Dates.easterYMD 2026 = ⟨2026, 4, 5⟩ ∧
    Dates.addDays (Dates.easterYMD 2026) (-2) = ⟨2026, 4, 3⟩ ∧
    Dates.shiftDays (Dates.easterYMD 2026) (-2) = ⟨2026, 4, 2⟩ ∧
    (Dates.holidaySet 2026).contains ⟨2026, 4, 3⟩ = false ∧
    (Dates.holidaySet 2026).contains ⟨2026, 2, 17⟩ = false ∧
    (Dates.holidaySet 2026).contains ⟨2026, 2, 15⟩ = true ∧
    Dates.getNextWorkingDays 7 ⟨2026, 4, 2⟩ 4 20 =
      some [⟨2026, 4, 1⟩, ⟨2026, 4, 3⟩, ⟨2026, 4, 4⟩, ⟨2026, 4, 6⟩,
            ⟨2026, 4, 7⟩, ⟨2026, 4, 8⟩, ⟨2026, 4, 9⟩] := by
  decide

/-! ## Claim C8: cancellation always wins -/

/-- C8.  For every conversation state, active form and inbound event whose
text contains the cancellation phrase, `generarRespuesta` handles it before
any stage dispatch: the state is reset to `initial`, the form is discarded,
nothing is sent, the store is untouched, and the cancellation reply is
returned. -/
theorem cancellation_always_wins (ctx : Bot.Ctx) (store : Store)
    (us0 : Option Bot.UserState) (form : Option Bot.FormState) (ev : Bot.Event)
    (hc : jsIncludes (jsToLower (jsTrim ev.text)) "cancelar" = true) :
    Bot.generarRespuesta ctx store us0 form ev =
      { us := { state := "initial", updatedAt := some ctx.now }
        form := none, store := store, outs := []
        reply := "Has cancelado el proceso actual. Escribe \"hola\" para comenzar de nuevo." } := by
  unfold Bot.generarRespuesta
  simp [hc]

/-- Witness for C8 at one representative state of each of
`awaiting_service_type`, `collecting_form` (with an active form) and
`awaiting_appointment_confirmation`: the cancel phrase resets each to
`initial` and discards the form. -/
theorem cancellation_always_wins_witness :
    (let ctx : Bot.Ctx := { fromAddr := "591700", now := 9, nowIso := "t", workingDays := [] }
     let store : Store := { slots := [] }
     let f : Bot.FormState :=
       { idx := 0, data := {}, schema := Bot.FORM_APPT, serviceType := "X",
         slots := [], autofilledPhone := "700", awaitingPhoneManual := false }
     let reset : Bot.StepResult :=
       { us := { state := "initial", updatedAt := some 9 }
         form := none, store := store, outs := []
         reply := "Has cancelado el proceso actual. Escribe \"hola\" para comenzar de nuevo." }
     Bot.generarRespuesta ctx store
         (some { state := "awaiting_service_type" }) none
         { text := "Cancelar" } = reset ∧
       Bot.generarRespuesta ctx store
         (some { state := "collecting_form" }) (some f)
         { text := "  quiero CANCELAR todo  " } = reset ∧
       Bot.generarRespuesta ctx store
         (some { state := "awaiting_appointment_confirmation" }) none
         { text := "cancelar", buttonId := some "confirm_yes" } = reset) := by
  refine ⟨?_, ?_, ?_⟩ <;>
    exact cancellation_always_wins _ _ _ _ _ (by decide)

/-! ## Claim C4: appointment fields only set by a successful claim -/

theorem handleFormInput_us_eq (ctx : Bot.Ctx) (store : Store)
    (us : Bot.UserState) (form : Option Bot.FormState) (text : String) :
    (Bot.handleFormInput ctx store us form text).us = us := by
  unfold Bot.handleFormInput
  rcases form with _ | f
  · rfl
  · dsimp only
    split
    · rfl
    · split
      · split <;> rfl
      · split
        · rfl
        · split <;> rfl

theorem handleInitialMessage_appt (ctx : Bot.Ctx) (store : Store)
    (us : Bot.UserState) (form : Option Bot.FormState) (text : String) :
    apptPreserved us (Bot.handleInitialMessage ctx store us form text).us := by
  unfold Bot.handleInitialMessage apptPreserved
  dsimp only
  split
  · simp
  · split
    · simp
    · split
      · simp
      · split <;> simp

theorem handleServiceSelection_appt (ctx : Bot.Ctx) (store : Store)
    (us : Bot.UserState) (form : Option Bot.FormState) (text : String) :
    apptPreserved us (Bot.handleServiceSelection ctx store us form text).us := by
  unfold Bot.handleServiceSelection apptPreserved
  dsimp only
  split <;> simp

theorem handleDaySelected_appt (ctx : Bot.Ctx) (store : Store)
    (us : Bot.UserState) (form : Option Bot.FormState) (day : String) :
    apptPreserved us (Bot.handleDaySelected ctx store us form day).us := by
  unfold Bot.handleDaySelected apptPreserved
  dsimp only
  split
  · simp
  · split <;> simp

theorem handleAppointmentConfirmation_appt (ctx : Bot.Ctx) (store : Store)
    (us : Bot.UserState) (form : Option Bot.FormState) (text : String) :
    apptPreserved us (Bot.handleAppointmentConfirmation ctx store us form text).us := by
  unfold Bot.handleAppointmentConfirmation apptPreserved
  dsimp only
  split <;> simp

theorem finalizeFormConfirmation_appt (ctx : Bot.Ctx) (store : Store)
    (us : Bot.UserState) (form : Option Bot.FormState) :
    apptPreserved us (Bot.finalizeFormConfirmation ctx store us form).us := by
  unfold Bot.finalizeFormConfirmation apptPreserved
  rcases form with _ | f <;> simp

/-- `handleSlotRowSelected` either leaves the appointment fields alone or
has just performed a successful claim on the tapped row and moved to
`collecting_form`. -/
theorem handleSlotRowSelected_appt (ctx : Bot.Ctx) (store : Store)
    (us : Bot.UserState) (form : Option Bot.FormState) (row : Nat) :
    apptPreserved us (Bot.handleSlotRowSelected ctx store us form row).us ∨
      (∃ day, us.chosenDay = some day ∧
        (Sheets.reserveSlotRow store row ctx.fromAddr
          (us.serviceType.getD "") ctx.nowIso).1 = true ∧
        (Bot.handleSlotRowSelected ctx store us form row).us.state = "collecting_form" ∧
        (Bot.handleSlotRowSelected ctx store us form row).us.appointmentDate = some day) := by
  unfold Bot.handleSlotRowSelected
  rcases hd : us.chosenDay with _ | day
  · left; exact ⟨Or.inl rfl, Or.inl rfl⟩
  · dsimp only
    by_cases hres : (Sheets.reserveSlotRow store row ctx.fromAddr
      (us.serviceType.getD "") ctx.nowIso).1 = false
    · left
      unfold apptPreserved
      rw [if_pos hres]
      split <;> simp
    · have hres' : (Sheets.reserveSlotRow store row ctx.fromAddr
        (us.serviceType.getD "") ctx.nowIso).1 = true := by
        revert hres
        rcases (Sheets.reserveSlotRow store row ctx.fromAddr
          (us.serviceType.getD "") ctx.nowIso).1 with _ | _ <;> simp
      right
      refine ⟨day, rfl, hres', ?_, ?_⟩ <;> rw [if_neg hres]

/-- `handleButtonAction` either leaves the appointment fields alone or the
id is a `slot_` id whose parsed row was successfully claimed, landing in
`collecting_form`. -/
theorem handleButtonAction_appt (ctx : Bot.Ctx) (store : Store)
    (us : Bot.UserState) (form : Option Bot.FormState) (bid : String) :
    apptPreserved us (Bot.handleButtonAction ctx store us form bid).us ∨
      (jsStartsWith bid "slot_" = true ∧
        ∃ day, us.chosenDay = some day ∧
        (Sheets.reserveSlotRow store (jsParseIntNat (jsDrop bid 5)) ctx.fromAddr
          (us.serviceType.getD "") ctx.nowIso).1 = true ∧
        (Bot.handleButtonAction ctx store us form bid).us.state = "collecting_form" ∧
        (Bot.handleButtonAction ctx store us form bid).us.appointmentDate = some day) := by
  unfold Bot.handleButtonAction
  by_cases h1 : jsStartsWith bid "day_"
  · rw [if_pos h1]
    exact Or.inl (handleDaySelected_appt ctx store us form (jsDrop bid 4))
  rw [if_neg h1]
  by_cases h2 : jsStartsWith bid "slot_"
  · rw [if_pos h2]
    rcases handleSlotRowSelected_appt ctx store us form
        (jsParseIntNat (jsDrop bid 5)) with h | ⟨day, ha, hb, hc, hd⟩
    · exact Or.inl h
    · exact Or.inr ⟨h2, day, ha, hb, hc, hd⟩
  rw [if_neg h2]
  left
  by_cases h3 : jsStartsWith bid "more_"
  · rw [if_pos h3]
    dsimp only
    split <;> exact ⟨Or.inl rfl, Or.inl rfl⟩
  rw [if_neg h3]
  by_cases h4 : bid == "tel_yes" || bid == "tel_no"
  · rw [if_pos h4]
    rcases form with _ | f
    · exact ⟨Or.inl rfl, Or.inl rfl⟩
    · dsimp only
      split <;> exact ⟨Or.inl rfl, Or.inl rfl⟩
  rw [if_neg h4]
  by_cases h5 : bid == "inicio"
  · rw [if_pos h5]; exact ⟨Or.inr rfl, Or.inr rfl⟩
  rw [if_neg h5]
  by_cases h6 : bid == "ver_servicios"
  · rw [if_pos h6]; exact ⟨Or.inl rfl, Or.inl rfl⟩
  rw [if_neg h6]
  by_cases h7 : bid == "agendar_cita"
  · rw [if_pos h7]; exact ⟨Or.inl rfl, Or.inl rfl⟩
  rw [if_neg h7]
  by_cases h8 : bid == "hablar_asesor"
  · rw [if_pos h8]; exact ⟨Or.inl rfl, Or.inl rfl⟩
  rw [if_neg h8]
  by_cases h9 : bid == "horario"
  · rw [if_pos h9]; exact ⟨Or.inl rfl, Or.inl rfl⟩
  rw [if_neg h9]
  by_cases h10 : bid == "ubicacion"
  · rw [if_pos h10]; exact ⟨Or.inl rfl, Or.inl rfl⟩
  rw [if_neg h10]
  by_cases h11 : bid == "confirm_yes"
  · rw [if_pos h11]
    rcases form with _ | f
    · exact ⟨Or.inl rfl, Or.inl rfl⟩
    · exact finalizeFormConfirmation_appt ctx store us (some f)
  rw [if_neg h11]
  by_cases h12 : bid == "confirm_edit"
  · rw [if_pos h12]; exact ⟨Or.inl rfl, Or.inl rfl⟩
  rw [if_neg h12]
  by_cases h13 : bid == "edit_nombre" || bid == "edit_telefono" || bid == "edit_email"
  · rw [if_pos h13]
    rcases form with _ | f
    · exact ⟨Or.inl rfl, Or.inl rfl⟩
    · dsimp only
      split <;> exact ⟨Or.inl rfl, Or.inl rfl⟩
  rw [if_neg h13]
  by_cases h14 : jsStartsWith bid "serv_"
  · rw [if_pos h14]; exact ⟨Or.inl rfl, Or.inl rfl⟩
  rw [if_neg h14]
  by_cases h15 : jsStartsWith bid "area_"
  · rw [if_pos h15]
    split <;> exact ⟨Or.inl rfl, Or.inl rfl⟩
  · rw [if_neg h15]
    exact ⟨Or.inl rfl, Or.inl rfl⟩

set_option maxHeartbeats 2000000 in
/-- C4.  For every conversation state and inbound event, a
`generarRespuesta` transition either leaves `appointmentDate` and
`appointmentTime` untouched (or unsets them), or it is a `slot_` selection
whose claim against the slot store (on the parsed row, for this sender and
the recorded service type) has just returned success — in which case the
session lands in `collecting_form` with `appointmentDate` equal to the
chosen day.  The fields are thus never set speculatively before or without
a successful claim. -/
theorem appointment_only_after_successful_claim (ctx : Bot.Ctx) (store : Store)
    (us0 : Option Bot.UserState) (form : Option Bot.FormState) (ev : Bot.Event) :
    apptPreserved (us0.getD { state := "initial" })
        (Bot.generarRespuesta ctx store us0 form ev).us ∨
      (∃ bid day, ev.buttonId = some bid ∧ jsStartsWith bid "slot_" = true ∧
        (us0.getD { state := "initial" }).chosenDay = some day ∧
        (Sheets.reserveSlotRow store (jsParseIntNat (jsDrop bid 5)) ctx.fromAddr
          ((us0.getD { state := "initial" }).serviceType.getD "") ctx.nowIso).1 = true ∧
        (Bot.generarRespuesta ctx store us0 form ev).us.state = "collecting_form" ∧
        (Bot.generarRespuesta ctx store us0 form ev).us.appointmentDate = some day) := by
  unfold Bot.generarRespuesta
  dsimp only
  by_cases hc : jsIncludes (jsToLower (jsTrim ev.text)) "cancelar"
  · rw [if_pos hc]; left; exact ⟨Or.inr rfl, Or.inr rfl⟩
  rw [if_neg hc]
  by_cases ha : jsIncludes (jsToLower (jsTrim ev.text)) "ayuda"
  · rw [if_pos ha]; left; exact ⟨Or.inl rfl, Or.inl rfl⟩
  rw [if_neg ha]
  rcases hev : ev.buttonId with _ | bid
  · dsimp only
    by_cases hf : form.isSome
    · rw [if_pos hf]
      left
      have h := handleFormInput_us_eq ctx store
        { us0.getD { state := "initial" } with updatedAt := some ctx.now } form ev.text
      rw [h]
      exact ⟨Or.inl rfl, Or.inl rfl⟩
    rw [if_neg hf]
    by_cases hs1 : ({ us0.getD { state := "initial" } with
        updatedAt := some ctx.now } : Bot.UserState).state == "awaiting_service_type"
    · rw [if_pos hs1]
      exact Or.inl (handleServiceSelection_appt ctx store _ form ev.text)
    rw [if_neg hs1]
    by_cases hs2 : ({ us0.getD { state := "initial" } with
        updatedAt := some ctx.now } : Bot.UserState).state == "awaiting_day_choice"
    · rw [if_pos hs2]; left; exact ⟨Or.inl rfl, Or.inl rfl⟩
    rw [if_neg hs2]
    by_cases hs3 : ({ us0.getD { state := "initial" } with
        updatedAt := some ctx.now } : Bot.UserState).state == "awaiting_time_choice"
    · rw [if_pos hs3]; left; exact ⟨Or.inl rfl, Or.inl rfl⟩
    rw [if_neg hs3]
    by_cases hs4 : ({ us0.getD { state := "initial" } with
        updatedAt := some ctx.now } : Bot.UserState).state == "awaiting_appointment_confirmation"
    · rw [if_pos hs4]
      exact Or.inl (handleAppointmentConfirmation_appt ctx store _ form ev.text)
    · rw [if_neg hs4]
      exact Or.inl (handleInitialMessage_appt ctx store _ form ev.text)
  · dsimp only
    rcases handleButtonAction_appt ctx store
        { us0.getD { state := "initial" } with updatedAt := some ctx.now }
        form bid with h | ⟨hsw, day, hcd, hok, hst, had⟩
    · exact Or.inl h
    · exact Or.inr ⟨bid, day, rfl, hsw, hcd, hok, hst, had⟩

/-! ## Claim C7: normalize-before-validate in the form engine -/

/-- C7 counterexample.  In the manual-phone branch (`awaitingPhoneManual`,
entered via the "No, ingresar otro" button) `handleFormInput` applies
`validate` to the *raw* input, not to the normalized value.  The two
disagree on `"59159112345"`: its normalization `"59112345"` is rejected by
the validator (stripping a second `591` prefix leaves five digits), yet the
raw input passes, so the engine stores `"59112345"` and advances
`fieldIndex` where validate-on-normalized would have re-prompted. -/
theorem handleFormInput_manual_phone_validates_raw :
    (let ctx : Bot.Ctx :=
       { fromAddr := "59165900645", now := 0, nowIso := "t0", workingDays := [] }
     let store : Store := { slots := [] }
     let us : Bot.UserState := { state := "collecting_form" }
     let f : Bot.FormState :=
       { idx := 1
         data := { telefono := some "65900645" }
         schema := Bot.FORM_APPT
         serviceType := "Asesoría Legal"
         slots := [{ row := 2, date := "2026-04-06", time := "09:00", label := "l" }]
         autofilledPhone := "65900645"
         awaitingPhoneManual := true }
     let r := Bot.handleFormInput ctx store us (some f) "59159112345"
     Bot.telefonoNormalize "59159112345" = "59112345" ∧
     Bot.telefonoValidate "59112345" =
       .err "Número inválido. Usa 8 dígitos (ej. 65900645)." ∧
     r.form.map (fun g => g.idx) = some 2 ∧
     (r.form.bind fun g => g.data.telefono) = some "59112345" ∧
     r.reply = "") := by
  decide

/-- C7 (amended).  In the normal flow `handleFormInput` applies `normalize`
to the raw input, checks `validate` on the normalized value, and on success
stores the (trimmed) normalized value — not the raw input — advancing
`fieldIndex` by exactly one; on failure nothing is stored, the index does
not advance and the error is replied.  In the manual-phone branch the same
holds except that `validate` receives the raw input (the phone validator
normalizes internally, so the two disagree only on inputs such as
`"59159112345"` whose digits begin with a doubled `591`).  The phone input
`"+591 65900645"` normalizes to `"65900645"`, which passes the 8-digit
validator. -/
theorem handleFormInput_contract (ctx : Bot.Ctx) (store : Store)
    (us : Bot.UserState) (f : Bot.FormState) (text : String) (field : Bot.FormField)
    (hfield : f.schema.get? f.idx = some field) :
    (¬ (field.key = "telefono" ∧ f.awaitingPhoneManual = true) →
      (field.validate ((field.normalize.getD id) text) = .ok →
        (Bot.handleFormInput ctx store us (some f) text).form =
          some { f with
            data := Bot.setField f.data field.key
              (jsTrim ((field.normalize.getD id) text))
            idx := f.idx + 1 } ∧
        (Bot.handleFormInput ctx store us (some f) text).us = us) ∧
      (∀ m, field.validate ((field.normalize.getD id) text) = .err m →
        Bot.handleFormInput ctx store us (some f) text =
          { us := us, form := some f, store := store, outs := [], reply := m })) ∧
    (field.key = "telefono" → f.awaitingPhoneManual = true →
      (field.validate text = .ok →
        (Bot.handleFormInput ctx store us (some f) text).form =
          some { f with
            data := Bot.setField f.data field.key
              (jsTrim ((field.normalize.getD id) text))
            awaitingPhoneManual := false
            idx := f.idx + 1 }) ∧
      (∀ m, field.validate text = .err m →
        Bot.handleFormInput ctx store us (some f) text =
          { us := us, form := some f, store := store, outs := [], reply := m })) ∧
    Bot.telefonoNormalize "+591 65900645" = "65900645" ∧
    Bot.telefonoValidate "65900645" = .ok := by
  refine ⟨?_, ?_, by decide, by decide⟩
  · intro hnotman
    unfold Bot.handleFormInput
    dsimp only
    rw [hfield]
    dsimp only
    rw [if_neg (by simpa using hnotman)]
    constructor
    · intro hok
      rw [hok]
      dsimp only
      split <;> exact ⟨rfl, rfl⟩
    · intro m herr
      rw [herr]
  · intro hkey hman
    unfold Bot.handleFormInput
    dsimp only
    rw [hfield]
    dsimp only
    rw [if_pos (by simp [hkey, hman])]
    constructor
    · intro hok
      rw [hok]
    · intro m herr
      rw [herr]

/-- Witness for C7's amended contract: the name field (normal flow) accepts
`"María González"` and advances from index 0 to 1 storing the trimmed
value, and rejects `"X"` without advancing. -/
theorem handleFormInput_contract_witness :
    (let ctx : Bot.Ctx :=
       { fromAddr := "59165900645", now := 0, nowIso := "t0", workingDays := [] }
     let store : Store := { slots := [] }
     let us : Bot.UserState := { state := "collecting_form" }
     let f : Bot.FormState :=
       { idx := 0
         data := { telefono := some "65900645" }
         schema := Bot.FORM_APPT
         serviceType := "Asesoría Legal"
         slots := [{ row := 2, date := "2026-04-06", time := "09:00", label := "l" }]
         autofilledPhone := "65900645"
         awaitingPhoneManual := false }
     (Bot.handleFormInput ctx store us (some f) "María González").form =
       some { f with
         data := Bot.setField f.data "nombre" (jsTrim "María González")
         idx := 0 + 1 } ∧
     Bot.handleFormInput ctx store us (some f) "X" =
       { us := us, form := some f, store := store, outs := []
         reply := "Escribe nombre y apellido (ej. María González)." }) := by
  refine ⟨?_, ?_⟩
  · exact ((handleFormInput_contract
      { fromAddr := "59165900645", now := 0, nowIso := "t0", workingDays := [] }
      { slots := [] }
      { state := "collecting_form" }
      { idx := 0
        data := { telefono := some "65900645" }
        schema := Bot.FORM_APPT
        serviceType := "Asesoría Legal"
        slots := [{ row := 2, date := "2026-04-06", time := "09:00", label := "l" }]
        autofilledPhone := "65900645"
        awaitingPhoneManual := false }
      "María González"
      { key := "nombre"
        prompt := fun _ => "Para agendar tu cita ¿Cuál es tu *nombre y apellido*?"
        validate := Bot.nombreValidate }
      rfl).1 (by decide)).1 (by decide) |>.1
  · exact ((handleFormInput_contract
      { fromAddr := "59165900645", now := 0, nowIso := "t0", workingDays := [] }
      { slots := [] }
      { state := "collecting_form" }
      { idx := 0
        data := { telefono := some "65900645" }
        schema := Bot.FORM_APPT
        serviceType := "Asesoría Legal"
        slots := [{ row := 2, date := "2026-04-06", time := "09:00", label := "l" }]
        autofilledPhone := "65900645"
        awaitingPhoneManual := false }
      "X"
      { key := "nombre"
        prompt := fun _ => "Para agendar tu cita ¿Cuál es tu *nombre y apellido*?"
        validate := Bot.nombreValidate }
      rfl).1 (by decide)).2 _ (by decide)

/-! ## Claim C3: stale slot selections and the claim attempt -/

/-- C3 counterexample.  In `awaiting_time_choice` with
`offeredSlots = [row 2, row 3]` recorded, a selection of `slot_4` — a row
id not in the offered set — *does* result in a claim attempt against the
store: row 4 is written to `RESERVADO` for this sender and the session
moves to `collecting_form`, instead of the refresh-and-re-render the claim
requires. -/
theorem staleSlotSelection_claims_store :
    (let d : String := "2026-04-06"
     let ctx : Bot.Ctx :=
       { fromAddr := "59165900645", now := 5, nowIso := "t0", workingDays := [d] }
     let store : Store :=
       { slots := [{ fecha := d, hora := "09:00", estado := "DISPONIBLE" },
                   { fecha := d, hora := "09:30", estado := "DISPONIBLE" },
                   { fecha := d, hora := "10:00", estado := "DISPONIBLE" }] }
     let us : Bot.UserState :=
       { state := "awaiting_time_choice"
         serviceType := some "Asesoría Legal"
         chosenDay := some d
         lastOfferedSlots := some
           [{ row := 2, date := d, time := "09:00", label := "2026-04-06 • 09:00" },
            { row := 3, date := d, time := "09:30", label := "2026-04-06 • 09:30" }]
         slotsPage := some 0 }
     let r := Bot.generarRespuesta ctx store (some us) none
       { text := "10:00", buttonId := some "slot_4" }
     ((us.lastOfferedSlots.getD []).map (fun s => s.row)).contains 4 = false ∧
     (r.store.rowAt 4).estado = "RESERVADO" ∧
     (r.store.rowAt 4).reservadoPor = "59165900645" ∧
     r.store ≠ store ∧
     r.us.state = "collecting_form") := by
  decide

/-- C3 (amended).  `handleSlotRowSelected` never consults membership of the
tapped row in `offeredSlots` when deciding whether to claim: whenever a day
is chosen, the claim on the tapped row is attempted unconditionally, and on
success the session books it (landing in `collecting_form` with the store
updated by the claim write), whether or not the row was offered; the
refresh-and-re-render happens only when the claim itself fails. -/
theorem slotSelection_claims_regardless_of_offer (ctx : Bot.Ctx) (store : Store)
    (us : Bot.UserState) (form : Option Bot.FormState) (row : Nat) (day : String)
    (hday : us.chosenDay = some day)
    (hok : (Sheets.reserveSlotRow store row ctx.fromAddr
      (us.serviceType.getD "") ctx.nowIso).1 = true) :
    (Bot.handleSlotRowSelected ctx store us form row).store =
      (Sheets.reserveSlotRow store row ctx.fromAddr
        (us.serviceType.getD "") ctx.nowIso).2 ∧
    (Bot.handleSlotRowSelected ctx store us form row).us.state = "collecting_form" ∧
    (Bot.handleSlotRowSelected ctx store us form row).us.appointmentDate = some day ∧
    ((us.lastOfferedSlots.getD []).find? (fun s => s.row == row) = none →
      (Bot.handleSlotRowSelected ctx store us form row).us.appointmentTime = some "") := by
  unfold Bot.handleSlotRowSelected
  rw [hday]
  dsimp only
  rw [if_neg (by simp [hok])]
  refine ⟨rfl, rfl, rfl, ?_⟩
  intro hmiss
  rw [hmiss]
  rfl

/-- Witness for the amended C3: with the counterexample's store and state,
the claim on the unoffered row 4 succeeds and the session books it with an
empty time. -/
theorem slotSelection_claims_regardless_of_offer_witness :
    (let d : String := "2026-04-06"
     let ctx : Bot.Ctx :=
       { fromAddr := "59165900645", now := 5, nowIso := "t0", workingDays := [d] }
     let store : Store :=
       { slots := [{ fecha := d, hora := "09:00", estado := "DISPONIBLE" },
                   { fecha := d, hora := "09:30", estado := "DISPONIBLE" },
                   { fecha := d, hora := "10:00", estado := "DISPONIBLE" }] }
     let us : Bot.UserState :=
       { state := "awaiting_time_choice"
         serviceType := some "Asesoría Legal"
         chosenDay := some d
         lastOfferedSlots := some
           [{ row := 2, date := d, time := "09:00", label := "2026-04-06 • 09:00" },
            { row := 3, date := d, time := "09:30", label := "2026-04-06 • 09:30" }]
         slotsPage := some 0 }
     (Bot.handleSlotRowSelected ctx store us none 4).us.state = "collecting_form" ∧
     (Bot.handleSlotRowSelected ctx store us none 4).us.appointmentTime = some "") := by
  refine ⟨?_, ?_⟩
  · exact (slotSelection_claims_regardless_of_offer _ _ _ none 4 _
      rfl (by decide)).2.1
  · exact (slotSelection_claims_regardless_of_offer _ _ _ none 4 _
      rfl (by decide)).2.2.2 (by decide)

/-! ## Claim C5: behaviour of the losing claim -/

theorem reserveSlotRow_fail_fix (st : Store) (row : Nat) (p s n : String)
    (h : (Sheets.reserveSlotRow st row p s n).1 = false) :
    (Sheets.reserveSlotRow st row p s n).2 = st := by
  unfold Sheets.reserveSlotRow at h ⊢
  split at h
  · split <;> rfl
  · dsimp only at h ⊢
    split at h
    · split
      · rfl
      · simp_all
    · simp at h

/-- C5 counterexample.  When the losing claim's re-query of the chosen date
comes back empty, the orchestrator does *not* replace `offeredSlots` with
the fresh (empty) result and does not re-render the hour list: it keeps the
stale offered set and re-offers the day list instead (while indeed staying
in `awaiting_time_choice` with no appointment fields set). -/
theorem slotClaimFailure_empty_requery_keeps_offer :
    (let d : String := "2026-04-06"
     let ctx : Bot.Ctx :=
       { fromAddr := "59165900645", now := 5, nowIso := "t0", workingDays := [d] }
     let store : Store :=
       { slots := [{ fecha := d, hora := "09:00", estado := "RESERVADO" }] }
     let offered : List SlotOffered :=
       [{ row := 2, date := d, time := "09:00", label := "2026-04-06 • 09:00" }]
     let us : Bot.UserState :=
       { state := "awaiting_time_choice"
         serviceType := some "Asesoría Legal"
         chosenDay := some d
         lastOfferedSlots := some offered
         slotsPage := some 0 }
     let r := Bot.generarRespuesta ctx store (some us) none
       { text := "", buttonId := some "slot_2" }
     (Sheets.reserveSlotRow store 2 ctx.fromAddr "Asesoría Legal" "t0").1 = false ∧
     Sheets.getSlotsForDate store.slots d = [] ∧
     r.us.lastOfferedSlots = some offered ∧
     r.us.lastOfferedSlots ≠ some (Sheets.getSlotsForDate store.slots d) ∧
     r.outs = [Bot.Out.text ctx.fromAddr
         "Ese horario acaba de ocuparse 😕. Aquí tienes las *horas disponibles* actualizadas:"] ++
       Bot.sendNext7Days ctx ∧
     r.us.state = "awaiting_time_choice") := by
  decide

/-- C5 (amended).  When the slot claim returns `false`, the orchestrator
sends the apology, re-queries the store for open slots of the same chosen
date and stays in `awaiting_time_choice` with the appointment fields, the
form and the store untouched; if the re-query returns at least one slot it
replaces `offeredSlots` with the fresh result, resets pagination to the
first page and re-renders the hour list, while if the re-query is empty it
leaves `offeredSlots`/pagination unchanged and re-offers the working-day
list instead. -/
theorem slotClaimFailure_refresh (ctx : Bot.Ctx) (store : Store)
    (us : Bot.UserState) (form : Option Bot.FormState) (row : Nat) (day : String)
    (hstate : us.state = "awaiting_time_choice")
    (hday : us.chosenDay = some day)
    (hfail : (Sheets.reserveSlotRow store row ctx.fromAddr
      (us.serviceType.getD "") ctx.nowIso).1 = false) :
    (Bot.handleSlotRowSelected ctx store us form row).us.state = "awaiting_time_choice" ∧
    (Bot.handleSlotRowSelected ctx store us form row).store = store ∧
    (Bot.handleSlotRowSelected ctx store us form row).us.appointmentDate =
      us.appointmentDate ∧
    (Bot.handleSlotRowSelected ctx store us form row).us.appointmentTime =
      us.appointmentTime ∧
    (Bot.handleSlotRowSelected ctx store us form row).form = form ∧
    (Sheets.getSlotsForDate store.slots day ≠ [] →
      (Bot.handleSlotRowSelected ctx store us form row).us.lastOfferedSlots =
        some (Sheets.getSlotsForDate store.slots day) ∧
      (Bot.handleSlotRowSelected ctx store us form row).us.slotsPage = some 0 ∧
      (Bot.handleSlotRowSelected ctx store us form row).outs =
        Bot.Out.text ctx.fromAddr
            "Ese horario acaba de ocuparse 😕. Aquí tienes las *horas disponibles* actualizadas:" ::
          Bot.sendSlotsPaged ctx day (Sheets.getSlotsForDate store.slots day) 0) ∧
    (Sheets.getSlotsForDate store.slots day = [] →
      (Bot.handleSlotRowSelected ctx store us form row).us = us ∧
      (Bot.handleSlotRowSelected ctx store us form row).outs =
        Bot.Out.text ctx.fromAddr
            "Ese horario acaba de ocuparse 😕. Aquí tienes las *horas disponibles* actualizadas:" ::
          Bot.sendNext7Days ctx) := by
  have hfix := reserveSlotRow_fail_fix store row ctx.fromAddr
    (us.serviceType.getD "") ctx.nowIso hfail
  unfold Bot.handleSlotRowSelected
  rw [hday]
  dsimp only
  rw [if_pos hfail, hfix]
  by_cases hempty : (Sheets.getSlotsForDate store.slots day).isEmpty
  · rw [if_pos hempty]
    have hnil : Sheets.getSlotsForDate store.slots day = [] :=
      List.isEmpty_iff.mp hempty
    exact ⟨hstate, rfl, rfl, rfl, rfl,
      fun hne => absurd hnil hne,
      fun _ => ⟨rfl, rfl⟩⟩
  · rw [if_neg hempty]
    have hne : Sheets.getSlotsForDate store.slots day ≠ [] := by
      intro h; exact hempty (by simp [h])
    exact ⟨hstate, rfl, rfl, rfl, rfl,
      fun _ => ⟨rfl, rfl, rfl⟩,
      fun hnil => absurd hnil hne⟩

/-- Witness for the amended C5: a claim on an already-reserved row with one
other open slot that day replaces the offered set with the fresh query and
re-renders, staying in `awaiting_time_choice`. -/
theorem slotClaimFailure_refresh_witness :
    (let d : String := "2026-04-06"
     let ctx : Bot.Ctx :=
       { fromAddr := "59165900645", now := 5, nowIso := "t0", workingDays := [d] }
     let store : Store :=
       { slots := [{ fecha := d, hora := "09:00", estado := "RESERVADO" },
                   { fecha := d, hora := "09:30", estado := "DISPONIBLE" }] }
     let us : Bot.UserState :=
       { state := "awaiting_time_choice"
         serviceType := some "Asesoría Legal"
         chosenDay := some d
         lastOfferedSlots := some
           [{ row := 2, date := d, time := "09:00", label := "2026-04-06 • 09:00" }]
         slotsPage := some 0 }
     (Bot.handleSlotRowSelected ctx store us none 2).us.state = "awaiting_time_choice" ∧
     (Bot.handleSlotRowSelected ctx store us none 2).us.lastOfferedSlots =
       some (Sheets.getSlotsForDate store.slots d)) := by
  refine ⟨?_, ?_⟩
  · exact (slotClaimFailure_refresh _ _ _ none 2 _ rfl rfl (by decide)).1
  · exact ((slotClaimFailure_refresh _ _ _ none 2 _ rfl rfl
      (by decide)).2.2.2.2.2.1 (by decide)).1

/-! ## Claim C10: the no-revalidation variant books an empty time -/

theorem handleButtonAction_confirm_yes (ctx : Bot.Ctx) (store : Store)
    (us : Bot.UserState) (f : Bot.FormState) :
    Bot.handleButtonAction ctx store us (some f) "confirm_yes" =
      Bot.finalizeFormConfirmation ctx store us (some f) := by
  unfold Bot.handleButtonAction
  rw [if_neg (by decide), if_neg (by decide), if_neg (by decide),
    if_neg (by decide), if_neg (by decide), if_neg (by decide),
    if_neg (by decide), if_neg (by decide), if_neg (by decide),
    if_neg (by decide), if_pos (by decide)]

/-- C10.  When a slot selection references a row not present in
`offeredSlots` and the claim on that row nevertheless succeeds, the
remembered slot defaults to `{ row, date := chosenDay, time := '', label := '' }`:
the session's `appointmentTime` is set to the empty string, the started
form carries that single defaulted slot, and the booking row subsequently
appended to the ledger by the Confirmar button carries an empty time field
(and the chosen day as its date). -/
theorem unvalidatedClaim_books_empty_time (ctx ctx2 : Bot.Ctx) (store : Store)
    (us : Bot.UserState) (form : Option Bot.FormState) (row : Nat) (day : String)
    (hday : us.chosenDay = some day)
    (hmiss : (us.lastOfferedSlots.getD []).find? (fun s => s.row == row) = none)
    (hok : (Sheets.reserveSlotRow store row ctx.fromAddr
      (us.serviceType.getD "") ctx.nowIso).1 = true) :
    (Bot.handleSlotRowSelected ctx store us form row).us.appointmentTime = some "" ∧
    (∃ f, (Bot.handleSlotRowSelected ctx store us form row).form = some f ∧
      f.slots = [{ row := row, date := day, time := "", label := "" }]) ∧
    (∃ a,
      (Bot.handleButtonAction ctx2
          (Bot.handleSlotRowSelected ctx store us form row).store
          (Bot.handleSlotRowSelected ctx store us form row).us
          (Bot.handleSlotRowSelected ctx store us form row).form
          "confirm_yes").store.citas =
        (Bot.handleSlotRowSelected ctx store us form row).store.citas ++ [a] ∧
      a.hora = "" ∧ a.fecha = day ∧ a.estado = "CONFIRMADA") := by
  have hstep :
      Bot.handleSlotRowSelected ctx store us form row =
        (let chosen : SlotOffered := { row := row, date := day, time := "", label := "" }
         let svc := match us.serviceType with
           | some s => if s == "" then "Servicio" else s
           | none => "Servicio"
         let f := Bot.startForm ctx svc [chosen]
         { us := { us with
             appointmentDate := some day
             appointmentTime := some ""
             state := "collecting_form"
             currentStep := some 3
             updatedAt := some ctx.now }
           form := some f
           store := (Sheets.reserveSlotRow store row ctx.fromAddr
             (us.serviceType.getD "") ctx.nowIso).2
           outs := Bot.askNext ctx (some f)
           reply := "" }) := by
    unfold Bot.handleSlotRowSelected
    rw [hday]
    dsimp only
    rw [if_neg (by simp [hok]), hmiss]
    rfl
  rw [hstep]
  refine ⟨rfl, ⟨_, rfl, rfl⟩, ?_⟩
  rw [handleButtonAction_confirm_yes]
  unfold Bot.finalizeFormConfirmation Sheets.appendAppointmentRow
  exact ⟨_, rfl, rfl, rfl, rfl⟩

/-- Witness for C10: selecting the unoffered (but open) row 4 books an
empty time and the confirmed booking row lands in the ledger with an empty
`hora` cell. -/
theorem unvalidatedClaim_books_empty_time_witness :
    (let d : String := "2026-04-06"
     let ctx : Bot.Ctx :=
       { fromAddr := "59165900645", now := 5, nowIso := "t0", workingDays := [d] }
     let store : Store :=
       { slots := [{ fecha := d, hora := "09:00", estado := "DISPONIBLE" },
                   { fecha := d, hora := "09:30", estado := "DISPONIBLE" },
                   { fecha := d, hora := "10:00", estado := "DISPONIBLE" }] }
     let us : Bot.UserState :=
       { state := "awaiting_time_choice"
         serviceType := some "Asesoría Legal"
         chosenDay := some d
         lastOfferedSlots := some
           [{ row := 2, date := d, time := "09:00", label := "2026-04-06 • 09:00" },
            { row := 3, date := d, time := "09:30", label := "2026-04-06 • 09:30" }]
         slotsPage := some 0 }
     (Bot.handleSlotRowSelected ctx store us none 4).us.appointmentTime = some "" ∧
     (∃ a,
       (Bot.handleButtonAction ctx
           (Bot.handleSlotRowSelected ctx store us none 4).store
           (Bot.handleSlotRowSelected ctx store us none 4).us
           (Bot.handleSlotRowSelected ctx store us none 4).form
           "confirm_yes").store.citas =
         (Bot.handleSlotRowSelected ctx store us none 4).store.citas ++ [a] ∧
       a.hora = "" ∧ a.fecha = d ∧ a.estado = "CONFIRMADA")) := by
  refine ⟨?_, ?_⟩
  · exact (unvalidatedClaim_books_empty_time
      { fromAddr := "59165900645", now := 5, nowIso := "t0", workingDays := ["2026-04-06"] }
      { fromAddr := "59165900645", now := 5, nowIso := "t0", workingDays := ["2026-04-06"] }
      { slots := [{ fecha := "2026-04-06", hora := "09:00", estado := "DISPONIBLE" },
                  { fecha := "2026-04-06", hora := "09:30", estado := "DISPONIBLE" },
                  { fecha := "2026-04-06", hora := "10:00", estado := "DISPONIBLE" }] }
      { state := "awaiting_time_choice"
        serviceType := some "Asesoría Legal"
        chosenDay := some "2026-04-06"
        lastOfferedSlots := some
          [{ row := 2, date := "2026-04-06", time := "09:00", label := "2026-04-06 • 09:00" },
           { row := 3, date := "2026-04-06", time := "09:30", label := "2026-04-06 • 09:30" }]
        slotsPage := some 0 }
      none 4 "2026-04-06"
      rfl (by decide) (by decide)).1
  · exact (unvalidatedClaim_books_empty_time
      { fromAddr := "59165900645", now := 5, nowIso := "t0", workingDays := ["2026-04-06"] }
      { fromAddr := "59165900645", now := 5, nowIso := "t0", workingDays := ["2026-04-06"] }
      { slots := [{ fecha := "2026-04-06", hora := "09:00", estado := "DISPONIBLE" },
                  { fecha := "2026-04-06", hora := "09:30", estado := "DISPONIBLE" },
                  { fecha := "2026-04-06", hora := "10:00", estado := "DISPONIBLE" }] }
      { state := "awaiting_time_choice"
        serviceType := some "Asesoría Legal"
        chosenDay := some "2026-04-06"
        lastOfferedSlots := some
          [{ row := 2, date := "2026-04-06", time := "09:00", label := "2026-04-06 • 09:00" },
           { row := 3, date := "2026-04-06", time := "09:30", label := "2026-04-06 • 09:30" }]
        slotsPage := some 0 }
      none 4 "2026-04-06"
      rfl (by decide) (by decide)).2.2
